import Mathlib

/-!
# libARMCopro: MCR/MRC decoder (`arm_mcr.c`)

A shallow embedding of the bitfield accessors, the classification predicate,
the register catalog and `DecodeMrcAndPrint`, followed by theorems about them.

Conventions of the embedding:

* `uint32_t` values are natural numbers below `2 ^ 32`; where a C operation on
  `uint32_t` could leave that range the reduction `% 2 ^ 32` is written out.
* `char *` values that may be `NULL` are `Option String`.
* Standard output is the list of lines written so far; every `printf` call of
  `DecodeMrcAndPrint` writes exactly one newline-terminated line, which is
  stored here without its final newline.
-/

namespace ArmMcr

/-! ## Constants -/

def B0001 : Nat := 1
def B0111 : Nat := 7
def B1110 : Nat := 14
def B1111 : Nat := 15

/-- The macro `BIT(x)`, that is `1 << x`. -/
def BIT (x : Nat) : Nat := 1 <<< x

/-- The macro `ARRAY_SIZE(x)`. -/
def ARRAY_SIZE {α : Type} (x : List α) : Nat := x.length

/-- The seven bitfields of an MCR/MRC word: the `_Field` argument that the
macros `Pack`, `Extract` and `MaskInReg` paste onto `Mask_` and `ShiftWidth_`. -/
inductive Field where
  | Op1
  | Ldop
  | CRn
  | Rd
  | Cp
  | Op2
  | CRm
  deriving DecidableEq, Repr

def MaskMcrMrc_24_28 : Nat := B1110
def MaskMcrMrc_8_11 : Nat := B1111
def MaskMcrMrc : Nat := (MaskMcrMrc_24_28 <<< 24) ||| (MaskMcrMrc_8_11 <<< 8)

def ShiftWidth_Op1 : Nat := 21
def ShiftWidth_Ldop : Nat := 20
def ShiftWidth_CRn : Nat := 16
def ShiftWidth_Rd : Nat := 12
def ShiftWidth_Cp : Nat := 8
def ShiftWidth_Op2 : Nat := 5
def ShiftWidth_CRm : Nat := 0

def Mask_1bit : Nat := B0001
def Mask_3bits : Nat := B0111
def Mask_4bits : Nat := B1111

def Mask_Op1 : Nat := Mask_3bits
def Mask_Ldop : Nat := Mask_1bit
def Mask_CRn : Nat := Mask_4bits
def Mask_Rd : Nat := Mask_4bits
def Mask_Cp : Nat := Mask_4bits
def Mask_Op2 : Nat := Mask_3bits
def Mask_CRm : Nat := Mask_4bits

/-- Token pasting `ShiftWidth_ ## _Field`. -/
def ShiftWidth : Field → Nat
  | .Op1 => ShiftWidth_Op1
  | .Ldop => ShiftWidth_Ldop
  | .CRn => ShiftWidth_CRn
  | .Rd => ShiftWidth_Rd
  | .Cp => ShiftWidth_Cp
  | .Op2 => ShiftWidth_Op2
  | .CRm => ShiftWidth_CRm

/-- Token pasting `Mask_ ## _Field`. -/
def Mask : Field → Nat
  | .Op1 => Mask_Op1
  | .Ldop => Mask_Ldop
  | .CRn => Mask_CRn
  | .Rd => Mask_Rd
  | .Cp => Mask_Cp
  | .Op2 => Mask_Op2
  | .CRm => Mask_CRm

/-! ## Accessors to manipulate bitfields -/

/-- The macro `Pack(_Field, val)`: `(val & Mask) << ShiftWidth`, in 32 bits. -/
def Pack (f : Field) (val : Nat) : Nat := ((val &&& Mask f) <<< ShiftWidth f) % 2 ^ 32

/-- The macro `Extract(_Field, opcode)`: `(opcode >> ShiftWidth) & Mask`. -/
def Extract (f : Field) (opcode : Nat) : Nat := (opcode >>> ShiftWidth f) &&& Mask f

/-- The macro `MaskInReg(_Field)`: `Mask << ShiftWidth`. -/
def MaskInReg (f : Field) : Nat := Mask f <<< ShiftWidth f

def Mask_Op1_CRm_Op2_CRn : Nat :=
  MaskInReg .Op1 ||| MaskInReg .CRm ||| MaskInReg .Op2 ||| MaskInReg .CRn

/-- The function `is_mcr_or_mrc`. -/
def is_mcr_or_mrc (opcode : Nat) : Bool := MaskMcrMrc == (opcode &&& MaskMcrMrc)

/-! ## Coprocessor register descriptions -/

def ArmIsaCortexA9 : Nat := BIT 0
def ArmIsaCortexA15 : Nat := BIT 1
def ArmIsaCortexR4 : Nat := BIT 2

/-- The type `struct RegDesc`. -/
structure RegDesc where
  mask : Nat
  name : Option String
  comment : Option String
  isaMask : Nat
  deriving DecidableEq, Repr

/-- The null pointer, for a `char *`. -/
def NULL : Option String := none

def RDESC_ALL (_mask : Nat) (_name _comment : Option String) : RegDesc :=
  { mask := _mask, name := _name, comment := _comment, isaMask := 0xffffffff }

def RDESC_A15 (_mask : Nat) (_name _comment : Option String) : RegDesc :=
  { mask := _mask, name := _name, comment := _comment, isaMask := ArmIsaCortexA15 }

def RDESC_CR4 (_mask : Nat) (_name _comment : Option String) : RegDesc :=
  { mask := _mask, name := _name, comment := _comment, isaMask := ArmIsaCortexR4 }

/-- The macro `STRING_UNWRAP(str)`. -/
def STRING_UNWRAP (str : Option String) : String :=
  match str with
  | none => "Unknown"
  | some s => s

/-- The array `RegDescs`, in declaration order. -/
def RegDescs : List RegDesc := [
  -- C0
  RDESC_ALL (Pack .CRn 0 ||| Pack .Op1 0 ||| Pack .CRm 0 ||| Pack .Op2 0) (some "MIDR") (some "Main ID Register"),
  RDESC_ALL (Pack .CRn 0 ||| Pack .Op1 0 ||| Pack .CRm 0 ||| Pack .Op2 1) (some "CTR") (some "Cache Type Register"),
  RDESC_ALL (Pack .CRn 0 ||| Pack .Op1 0 ||| Pack .CRm 0 ||| Pack .Op2 2) (some "TCMTR") (some "TCM Type Register"),
  RDESC_ALL (Pack .CRn 0 ||| Pack .Op1 0 ||| Pack .CRm 0 ||| Pack .Op2 3) (some "TLBTR") (some "TLB Type Register"),
  RDESC_ALL (Pack .CRn 0 ||| Pack .Op1 0 ||| Pack .CRm 0 ||| Pack .Op2 5) (some "MPIDR") (some "Multiprocessor Affinity Register"),
  RDESC_A15 (Pack .CRn 0 ||| Pack .Op1 0 ||| Pack .CRm 0 ||| Pack .Op2 6) (some "REVIDR") (some "Revision ID Register"),
  RDESC_ALL (Pack .CRn 0 ||| Pack .Op1 0 ||| Pack .CRm 1 ||| Pack .Op2 0) (some "ID_PFR0") (some "Processor Feature Register 0"),
  RDESC_ALL (Pack .CRn 0 ||| Pack .Op1 0 ||| Pack .CRm 1 ||| Pack .Op2 1) (some "ID_PFR1") (some "Processor Feature Register 1"),
  RDESC_ALL (Pack .CRn 0 ||| Pack .Op1 0 ||| Pack .CRm 1 ||| Pack .Op2 2) (some "ID_DFR0") (some "Debug Feature Register 0"),
  RDESC_ALL (Pack .CRn 0 ||| Pack .Op1 0 ||| Pack .CRm 1 ||| Pack .Op2 3) (some "ID_AFR0") (some "Auiliary Feature Register 0"),
  RDESC_ALL (Pack .CRn 0 ||| Pack .Op1 0 ||| Pack .CRm 1 ||| Pack .Op2 4) (some "ID_MMFR0") (some "Memory Model Feature Register 0"),
  RDESC_ALL (Pack .CRn 0 ||| Pack .Op1 0 ||| Pack .CRm 1 ||| Pack .Op2 5) (some "ID_MMFR1") (some "Memory Model Feature Register 1"),
  RDESC_ALL (Pack .CRn 0 ||| Pack .Op1 0 ||| Pack .CRm 1 ||| Pack .Op2 6) (some "ID_MMFR2") (some "Memory Model Feature Register 2"),
  RDESC_ALL (Pack .CRn 0 ||| Pack .Op1 0 ||| Pack .CRm 1 ||| Pack .Op2 7) (some "ID_MMFR3") (some "Memory Model Feature Register 3"),
  RDESC_ALL (Pack .CRn 0 ||| Pack .Op1 0 ||| Pack .CRm 2 ||| Pack .Op2 0) (some "ID_ISAR0") (some "Instruction Set Attributes Register 0"),
  RDESC_ALL (Pack .CRn 0 ||| Pack .Op1 0 ||| Pack .CRm 2 ||| Pack .Op2 1) (some "ID_ISAR1") (some "Instruction Set Attributes Register 1"),
  RDESC_ALL (Pack .CRn 0 ||| Pack .Op1 0 ||| Pack .CRm 2 ||| Pack .Op2 2) (some "ID_ISAR2") (some "Instruction Set Attributes Register 2"),
  RDESC_ALL (Pack .CRn 0 ||| Pack .Op1 0 ||| Pack .CRm 2 ||| Pack .Op2 3) (some "ID_ISAR3") (some "Instruction Set Attributes Register 3"),
  RDESC_ALL (Pack .CRn 0 ||| Pack .Op1 0 ||| Pack .CRm 2 ||| Pack .Op2 4) (some "ID_ISAR4") (some "Instruction Set Attributes Register 4"),
  RDESC_ALL (Pack .CRn 0 ||| Pack .Op1 0 ||| Pack .CRm 2 ||| Pack .Op2 5) (some "ID_ISAR5") (some "Instruction Set Attributes Register 5"),
  RDESC_A15 (Pack .CRn 0 ||| Pack .Op1 1 ||| Pack .CRm 2 ||| Pack .Op2 0) (some "CCSIDR") (some "Current Cache Size ID"),
  RDESC_A15 (Pack .CRn 0 ||| Pack .Op1 1 ||| Pack .CRm 2 ||| Pack .Op2 1) (some "CLIDR") (some "Current Cache Level ID"),
  RDESC_A15 (Pack .CRn 0 ||| Pack .Op1 1 ||| Pack .CRm 2 ||| Pack .Op2 7) (some "AIDR") NULL,
  RDESC_A15 (Pack .CRn 0 ||| Pack .Op1 2 ||| Pack .CRm 0 ||| Pack .Op2 0) (some "CSSELR") (some "Cache Size Selection"),
  RDESC_A15 (Pack .CRn 0 ||| Pack .Op1 4 ||| Pack .CRm 0 ||| Pack .Op2 0) (some "VPIDR") NULL,
  RDESC_A15 (Pack .CRn 0 ||| Pack .Op1 4 ||| Pack .CRm 0 ||| Pack .Op2 5) (some "VMPIDR") NULL,
  -- C1
  RDESC_ALL (Pack .CRn 1 ||| Pack .Op1 0 ||| Pack .CRm 0 ||| Pack .Op2 0) (some "SCTLR") (some "System Control Register"),
  RDESC_ALL (Pack .CRn 1 ||| Pack .Op1 0 ||| Pack .CRm 0 ||| Pack .Op2 1) (some "ACTLR") (some "Auxiliary Control Register"),
  RDESC_ALL (Pack .CRn 1 ||| Pack .Op1 0 ||| Pack .CRm 0 ||| Pack .Op2 2) (some "CPACR") (some "Coprocessor Access Control Register"),
  RDESC_A15 (Pack .CRn 1 ||| Pack .Op1 0 ||| Pack .CRm 1 ||| Pack .Op2 0) (some "SCR") NULL,
  RDESC_A15 (Pack .CRn 1 ||| Pack .Op1 0 ||| Pack .CRm 1 ||| Pack .Op2 1) (some "SDER") NULL,
  RDESC_A15 (Pack .CRn 1 ||| Pack .Op1 0 ||| Pack .CRm 1 ||| Pack .Op2 2) (some "NSACR") NULL,
  RDESC_A15 (Pack .CRn 1 ||| Pack .Op1 0 ||| Pack .CRm 1 ||| Pack .Op2 3) (some "VCR") NULL,
  RDESC_A15 (Pack .CRn 1 ||| Pack .Op1 4 ||| Pack .CRm 0 ||| Pack .Op2 0) (some "HSCTLR") NULL,
  RDESC_A15 (Pack .CRn 1 ||| Pack .Op1 4 ||| Pack .CRm 0 ||| Pack .Op2 1) (some "HACTLR") NULL,
  RDESC_A15 (Pack .CRn 1 ||| Pack .Op1 4 ||| Pack .CRm 1 ||| Pack .Op2 0) (some "HCR") (some "Hypervisor Control Register"),
  RDESC_A15 (Pack .CRn 1 ||| Pack .Op1 4 ||| Pack .CRm 1 ||| Pack .Op2 1) (some "HDCR") NULL,
  RDESC_A15 (Pack .CRn 1 ||| Pack .Op1 4 ||| Pack .CRm 1 ||| Pack .Op2 2) (some "HCPTR") NULL,
  RDESC_A15 (Pack .CRn 1 ||| Pack .Op1 4 ||| Pack .CRm 1 ||| Pack .Op2 3) (some "HSTR") NULL,
  RDESC_A15 (Pack .CRn 1 ||| Pack .Op1 4 ||| Pack .CRm 1 ||| Pack .Op2 7) (some "HACR") (some "Hypervisor AUX Control Register"),
  -- C2
  RDESC_A15 (Pack .CRn 2 ||| Pack .Op1 0 ||| Pack .CRm 0 ||| Pack .Op2 0) (some "TTBR0") (some "Translation Table Base Register 0"),
  RDESC_A15 (Pack .CRn 2 ||| Pack .Op1 0 ||| Pack .CRm 0 ||| Pack .Op2 1) (some "TTBR1") (some "Translation Table Base Register 1"),
  RDESC_A15 (Pack .CRn 2 ||| Pack .Op1 0 ||| Pack .CRm 0 ||| Pack .Op2 2) (some "TTBCR") (some "Translation Table Base Control Register"),
  RDESC_A15 (Pack .CRn 2 ||| Pack .Op1 4 ||| Pack .CRm 0 ||| Pack .Op2 2) (some "HTCR") NULL,
  RDESC_A15 (Pack .CRn 2 ||| Pack .Op1 4 ||| Pack .CRm 1 ||| Pack .Op2 2) (some "VTCR") NULL,
  -- C3
  RDESC_A15 (Pack .CRn 3 ||| Pack .Op1 0 ||| Pack .CRm 0 ||| Pack .Op2 0) (some "DACR") NULL,
  -- C5
  RDESC_ALL (Pack .CRn 5 ||| Pack .Op1 0 ||| Pack .CRm 0 ||| Pack .Op2 0) (some "DFSR") (some "Data Fault Status Register"),
  RDESC_ALL (Pack .CRn 5 ||| Pack .Op1 0 ||| Pack .CRm 0 ||| Pack .Op2 1) (some "IFSR") (some "Instruction Fault Status Register"),
  RDESC_A15 (Pack .CRn 5 ||| Pack .Op1 0 ||| Pack .CRm 1 ||| Pack .Op2 0) (some "ADFSR") (some "Auxiliary Data Fault Status Register"),
  RDESC_A15 (Pack .CRn 5 ||| Pack .Op1 0 ||| Pack .CRm 1 ||| Pack .Op2 1) (some "AIFSR") (some "Auxiliary Instruction Fault Status Register"),
  RDESC_A15 (Pack .CRn 5 ||| Pack .Op1 4 ||| Pack .CRm 1 ||| Pack .Op2 0) (some "HADFSR") (some "Hypervisor Auxiliary Data Fault Status Register"),
  RDESC_A15 (Pack .CRn 5 ||| Pack .Op1 4 ||| Pack .CRm 1 ||| Pack .Op2 0) (some "HAIFSR") (some "Hypervisor Auxiliary Instruction Fault Status Register"),
  RDESC_A15 (Pack .CRn 5 ||| Pack .Op1 4 ||| Pack .CRm 2 ||| Pack .Op2 0) (some "HSR") NULL,
  -- C6
  RDESC_ALL (Pack .CRn 6 ||| Pack .Op1 0 ||| Pack .CRm 0 ||| Pack .Op2 0) (some "DFAR") (some "Data Fault Address Register"),
  RDESC_ALL (Pack .CRn 6 ||| Pack .Op1 0 ||| Pack .CRm 0 ||| Pack .Op2 2) (some "IFAR") (some "Instruction Fault Address Register"),
  RDESC_A15 (Pack .CRn 6 ||| Pack .Op1 4 ||| Pack .CRm 0 ||| Pack .Op2 0) (some "HDFAR") (some "Hypervisor Data Fault Address Register"),
  RDESC_A15 (Pack .CRn 6 ||| Pack .Op1 4 ||| Pack .CRm 0 ||| Pack .Op2 2) (some "HIFAR") (some "Hypervisor Instruction Fault Address Register"),
  RDESC_A15 (Pack .CRn 6 ||| Pack .Op1 4 ||| Pack .CRm 0 ||| Pack .Op2 4) (some "HPFAR") NULL,
  RDESC_CR4 (Pack .CRn 6 ||| Pack .Op1 0 ||| Pack .CRm 1 ||| Pack .Op2 0) (some "MPU BAR") (some "MPU Base Address Register"),
  RDESC_CR4 (Pack .CRn 6 ||| Pack .Op1 0 ||| Pack .CRm 1 ||| Pack .Op2 2) (some "MPU RSE") (some "MPU Region Size and Enable"),
  RDESC_CR4 (Pack .CRn 6 ||| Pack .Op1 0 ||| Pack .CRm 1 ||| Pack .Op2 4) (some "MPU RAC") (some "MPU Region Access Control"),
  RDESC_CR4 (Pack .CRn 6 ||| Pack .Op1 0 ||| Pack .CRm 2 ||| Pack .Op2 0) (some "MPU RN") (some "MPU Memory Region Number"),
  -- C7
  RDESC_A15 (Pack .CRn 7 ||| Pack .Op1 0 ||| Pack .CRm 0 ||| Pack .Op2 0) (some "Reserved") NULL,
  RDESC_A15 (Pack .CRn 7 ||| Pack .Op1 0 ||| Pack .CRm 0 ||| Pack .Op2 1) (some "Reserved") NULL,
  RDESC_A15 (Pack .CRn 7 ||| Pack .Op1 0 ||| Pack .CRm 0 ||| Pack .Op2 2) (some "Reserved") NULL,
  RDESC_A15 (Pack .CRn 7 ||| Pack .Op1 0 ||| Pack .CRm 0 ||| Pack .Op2 3) (some "Reserved") NULL,
  RDESC_A15 (Pack .CRn 7 ||| Pack .Op1 0 ||| Pack .CRm 0 ||| Pack .Op2 4) (some "NOP") NULL,
  RDESC_A15 (Pack .CRn 7 ||| Pack .Op1 0 ||| Pack .CRm 1 ||| Pack .Op2 0) (some "ICIALLUIS") NULL,
  RDESC_A15 (Pack .CRn 7 ||| Pack .Op1 0 ||| Pack .CRm 1 ||| Pack .Op2 6) (some "BPIALLIS") NULL,
  RDESC_A15 (Pack .CRn 7 ||| Pack .Op1 0 ||| Pack .CRm 1 ||| Pack .Op2 7) (some "Reserved") NULL,
  RDESC_A15 (Pack .CRn 7 ||| Pack .Op1 0 ||| Pack .CRm 4 ||| Pack .Op2 0) (some "PAR") NULL,
  RDESC_ALL (Pack .CRn 7 ||| Pack .Op1 0 ||| Pack .CRm 5 ||| Pack .Op2 0) (some "ICIALLU") (some "Invalidate Instruction Cache"),
  RDESC_ALL (Pack .CRn 7 ||| Pack .Op1 0 ||| Pack .CRm 5 ||| Pack .Op2 1) (some "ICIMVAU") (some "Invalidate Instruction Cache by MVA"),
  RDESC_A15 (Pack .CRn 7 ||| Pack .Op1 0 ||| Pack .CRm 5 ||| Pack .Op2 2) (some "Reserved") NULL,
  RDESC_A15 (Pack .CRn 7 ||| Pack .Op1 0 ||| Pack .CRm 5 ||| Pack .Op2 3) (some "Reserved") NULL,
  RDESC_A15 (Pack .CRn 7 ||| Pack .Op1 0 ||| Pack .CRm 5 ||| Pack .Op2 4) (some "ISB") (some "Instruction Sync Barrier"),
  RDESC_CR4 (Pack .CRn 7 ||| Pack .Op1 0 ||| Pack .CRm 5 ||| Pack .Op2 4) (some "FlushPrefetch") (some "Flush Prefetch Buffer"),
  RDESC_ALL (Pack .CRn 7 ||| Pack .Op1 0 ||| Pack .CRm 5 ||| Pack .Op2 6) (some "BPIALL") (some "Invalidate Entire Branch Predictor Array"),
  RDESC_A15 (Pack .CRn 7 ||| Pack .Op1 0 ||| Pack .CRm 6 ||| Pack .Op2 6) (some "DCIMVAC") NULL,
  RDESC_A15 (Pack .CRn 7 ||| Pack .Op1 0 ||| Pack .CRm 6 ||| Pack .Op2 2) (some "DCISW") (some "Invalidate Data Cache by Set/Way"),
  RDESC_A15 (Pack .CRn 7 ||| Pack .Op1 0 ||| Pack .CRm 8 ||| Pack .Op2 0) (some "ATS1CPR") NULL,
  RDESC_A15 (Pack .CRn 7 ||| Pack .Op1 0 ||| Pack .CRm 8 ||| Pack .Op2 1) (some "ATS1CPW") NULL,
  RDESC_A15 (Pack .CRn 7 ||| Pack .Op1 0 ||| Pack .CRm 8 ||| Pack .Op2 2) (some "ATS1CUR") NULL,
  RDESC_A15 (Pack .CRn 7 ||| Pack .Op1 0 ||| Pack .CRm 8 ||| Pack .Op2 3) (some "ATS1CUW") NULL,
  RDESC_A15 (Pack .CRn 7 ||| Pack .Op1 0 ||| Pack .CRm 8 ||| Pack .Op2 4) (some "ATS1NSOPR") NULL,
  RDESC_A15 (Pack .CRn 7 ||| Pack .Op1 0 ||| Pack .CRm 8 ||| Pack .Op2 5) (some "ATS1NSOPW") NULL,
  RDESC_A15 (Pack .CRn 7 ||| Pack .Op1 0 ||| Pack .CRm 8 ||| Pack .Op2 6) (some "ATS1NSOUR") NULL,
  RDESC_A15 (Pack .CRn 7 ||| Pack .Op1 0 ||| Pack .CRm 8 ||| Pack .Op2 7) (some "ATS1NSOUW") NULL,
  RDESC_ALL (Pack .CRn 7 ||| Pack .Op1 0 ||| Pack .CRm 10 ||| Pack .Op2 1) (some "DCCVAC") (some "Clean Data Cache line by Virtual Address"),
  RDESC_ALL (Pack .CRn 7 ||| Pack .Op1 0 ||| Pack .CRm 10 ||| Pack .Op2 2) (some "DCCSW") (some "Clean Data Cache by Set/Way"),
  RDESC_ALL (Pack .CRn 7 ||| Pack .Op1 0 ||| Pack .CRm 10 ||| Pack .Op2 4) (some "DSB") (some "Data Sync Barrier"),
  RDESC_ALL (Pack .CRn 7 ||| Pack .Op1 0 ||| Pack .CRm 10 ||| Pack .Op2 5) (some "DMB") (some "Data Memory Barrier"),
  RDESC_A15 (Pack .CRn 7 ||| Pack .Op1 0 ||| Pack .CRm 11 ||| Pack .Op2 1) (some "DCCVAU") (some "Clean Data cache by VA to PoU"),
  RDESC_A15 (Pack .CRn 7 ||| Pack .Op1 0 ||| Pack .CRm 14 ||| Pack .Op2 1) (some "DCCIMVAC") (some "Clean Data cache by MVA to PoU"),
  RDESC_A15 (Pack .CRn 7 ||| Pack .Op1 0 ||| Pack .CRm 14 ||| Pack .Op2 2) (some "DCCISW") NULL,
  RDESC_A15 (Pack .CRn 7 ||| Pack .Op1 4 ||| Pack .CRm 8 ||| Pack .Op2 0) (some "ATS1HR") NULL,
  RDESC_A15 (Pack .CRn 7 ||| Pack .Op1 4 ||| Pack .CRm 8 ||| Pack .Op2 0) (some "ATS1HW") NULL,
  -- C8
  RDESC_A15 (Pack .CRn 8 ||| Pack .Op1 0 ||| Pack .CRm 3 ||| Pack .Op2 0) (some "TLBIALLIS") NULL,
  RDESC_A15 (Pack .CRn 8 ||| Pack .Op1 0 ||| Pack .CRm 3 ||| Pack .Op2 1) (some "TLBIMVAIS") NULL,
  RDESC_A15 (Pack .CRn 8 ||| Pack .Op1 0 ||| Pack .CRm 3 ||| Pack .Op2 2) (some "TLBIASIDIS") NULL,
  RDESC_A15 (Pack .CRn 8 ||| Pack .Op1 0 ||| Pack .CRm 3 ||| Pack .Op2 3) (some "TLBIMVAAIS") NULL,
  RDESC_A15 (Pack .CRn 8 ||| Pack .Op1 0 ||| Pack .CRm 5 ||| Pack .Op2 0) (some "TLBIALL") NULL,
  RDESC_A15 (Pack .CRn 8 ||| Pack .Op1 0 ||| Pack .CRm 5 ||| Pack .Op2 1) (some "TLBIMVA") NULL,
  RDESC_A15 (Pack .CRn 8 ||| Pack .Op1 0 ||| Pack .CRm 5 ||| Pack .Op2 2) (some "TLBIASID") NULL,
  RDESC_A15 (Pack .CRn 8 ||| Pack .Op1 0 ||| Pack .CRm 5 ||| Pack .Op2 3) (some "TLBIMVAA") NULL,
  RDESC_A15 (Pack .CRn 8 ||| Pack .Op1 0 ||| Pack .CRm 6 ||| Pack .Op2 0) (some "TLBIALL") NULL,
  RDESC_A15 (Pack .CRn 8 ||| Pack .Op1 0 ||| Pack .CRm 6 ||| Pack .Op2 1) (some "TLBIMVA") NULL,
  RDESC_A15 (Pack .CRn 8 ||| Pack .Op1 0 ||| Pack .CRm 6 ||| Pack .Op2 2) (some "TLBIASID") NULL,
  RDESC_A15 (Pack .CRn 8 ||| Pack .Op1 0 ||| Pack .CRm 6 ||| Pack .Op2 3) (some "TLBIMVAA") NULL,
  RDESC_A15 (Pack .CRn 8 ||| Pack .Op1 0 ||| Pack .CRm 7 ||| Pack .Op2 0) (some "TLBIALL") NULL,
  RDESC_A15 (Pack .CRn 8 ||| Pack .Op1 0 ||| Pack .CRm 7 ||| Pack .Op2 1) (some "TLBIMVA") NULL,
  RDESC_A15 (Pack .CRn 8 ||| Pack .Op1 0 ||| Pack .CRm 7 ||| Pack .Op2 2) (some "TLBIASID") NULL,
  RDESC_A15 (Pack .CRn 8 ||| Pack .Op1 0 ||| Pack .CRm 7 ||| Pack .Op2 3) (some "TLBIMVAA") NULL,
  RDESC_A15 (Pack .CRn 8 ||| Pack .Op1 4 ||| Pack .CRm 3 ||| Pack .Op2 0) (some "TLBIALLHIS") NULL,
  RDESC_A15 (Pack .CRn 8 ||| Pack .Op1 4 ||| Pack .CRm 3 ||| Pack .Op2 1) (some "TLBIMVAHIS") NULL,
  RDESC_A15 (Pack .CRn 8 ||| Pack .Op1 4 ||| Pack .CRm 3 ||| Pack .Op2 4) (some "TLBIALLNSHIS") NULL,
  RDESC_A15 (Pack .CRn 8 ||| Pack .Op1 4 ||| Pack .CRm 7 ||| Pack .Op2 0) (some "TLBIALLH") NULL,
  RDESC_A15 (Pack .CRn 8 ||| Pack .Op1 4 ||| Pack .CRm 7 ||| Pack .Op2 1) (some "TLBIMVAH") NULL,
  RDESC_A15 (Pack .CRn 8 ||| Pack .Op1 4 ||| Pack .CRm 7 ||| Pack .Op2 4) (some "TLBIALLNSNH") NULL,
  -- C9
  RDESC_A15 (Pack .CRn 9 ||| Pack .Op1 1 ||| Pack .CRm 0 ||| Pack .Op2 2) (some "L2CTLR") NULL,
  RDESC_A15 (Pack .CRn 9 ||| Pack .Op1 1 ||| Pack .CRm 0 ||| Pack .Op2 3) (some "L2ECTLR") NULL,
  -- C10
  RDESC_A15 (Pack .CRn 10 ||| Pack .Op1 0 ||| Pack .CRm 0 ||| Pack .Op2 0) (some "TLB Lockdown") NULL,
  RDESC_A15 (Pack .CRn 10 ||| Pack .Op1 0 ||| Pack .CRm 2 ||| Pack .Op2 0) (some "PRRR/MAIR0") NULL,
  RDESC_A15 (Pack .CRn 10 ||| Pack .Op1 0 ||| Pack .CRm 2 ||| Pack .Op2 1) (some "NMRR/MAIR1") NULL,
  RDESC_A15 (Pack .CRn 10 ||| Pack .Op1 0 ||| Pack .CRm 3 ||| Pack .Op2 0) (some "AMAIR0") NULL,
  RDESC_A15 (Pack .CRn 10 ||| Pack .Op1 0 ||| Pack .CRm 3 ||| Pack .Op2 1) (some "AMAIR1") NULL,
  RDESC_A15 (Pack .CRn 10 ||| Pack .Op1 4 ||| Pack .CRm 2 ||| Pack .Op2 0) (some "HMAIR0") NULL,
  RDESC_A15 (Pack .CRn 10 ||| Pack .Op1 4 ||| Pack .CRm 2 ||| Pack .Op2 1) (some "HMAIR1") NULL,
  RDESC_A15 (Pack .CRn 10 ||| Pack .Op1 4 ||| Pack .CRm 3 ||| Pack .Op2 0) (some "HAMAIR0") NULL,
  RDESC_A15 (Pack .CRn 10 ||| Pack .Op1 4 ||| Pack .CRm 3 ||| Pack .Op2 1) (some "HAMAIR1") NULL,
  -- C12
  RDESC_A15 (Pack .CRn 12 ||| Pack .Op1 0 ||| Pack .CRm 0 ||| Pack .Op2 0) (some "VBAR") NULL,
  RDESC_A15 (Pack .CRn 12 ||| Pack .Op1 0 ||| Pack .CRm 0 ||| Pack .Op2 1) (some "MVBAR") NULL,
  RDESC_A15 (Pack .CRn 12 ||| Pack .Op1 0 ||| Pack .CRm 1 ||| Pack .Op2 0) (some "ISR") NULL,
  RDESC_A15 (Pack .CRn 12 ||| Pack .Op1 0 ||| Pack .CRm 1 ||| Pack .Op2 1) (some "VIR") NULL,
  RDESC_A15 (Pack .CRn 12 ||| Pack .Op1 4 ||| Pack .CRm 0 ||| Pack .Op2 0) (some "HVBAR") NULL,
  -- C13
  RDESC_A15 (Pack .CRn 13 ||| Pack .Op1 0 ||| Pack .CRm 0 ||| Pack .Op2 0) (some "FCSEIDR") (some "[deprecated] FSCE ID Register"),
  RDESC_A15 (Pack .CRn 13 ||| Pack .Op1 0 ||| Pack .CRm 0 ||| Pack .Op2 1) (some "CONTEXTIDR") (some "Context ID Register"),
  RDESC_A15 (Pack .CRn 13 ||| Pack .Op1 0 ||| Pack .CRm 0 ||| Pack .Op2 2) (some "TPIDRURW") (some "Software Thread ID Register"),
  RDESC_A15 (Pack .CRn 13 ||| Pack .Op1 0 ||| Pack .CRm 0 ||| Pack .Op2 3) (some "TPIDRURO") NULL,
  RDESC_A15 (Pack .CRn 13 ||| Pack .Op1 0 ||| Pack .CRm 0 ||| Pack .Op2 4) (some "TPIDRPRW") NULL,
  RDESC_A15 (Pack .CRn 13 ||| Pack .Op1 4 ||| Pack .CRm 0 ||| Pack .Op2 2) (some "HTPIDR") NULL,
  -- C15
  RDESC_A15 (Pack .CRn 15 ||| Pack .Op1 0 ||| Pack .CRm 0 ||| Pack .Op2 0) (some "PCR") (some "Power Control Register"),
  RDESC_A15 (Pack .CRn 15 ||| Pack .Op1 0 ||| Pack .CRm 1 ||| Pack .Op2 0) (some "NEONBR") (some "NEON Busy Register"),
  RDESC_A15 (Pack .CRn 15 ||| Pack .Op1 4 ||| Pack .CRm 0 ||| Pack .Op2 0) (some "CFGBA") (some "Configuration Base Address"),
  RDESC_A15 (Pack .CRn 15 ||| Pack .Op1 5 ||| Pack .CRm 4 ||| Pack .Op2 2) (some "PCR") (some "Select Lockdown TLB Entry for read"),
  RDESC_A15 (Pack .CRn 15 ||| Pack .Op1 5 ||| Pack .CRm 4 ||| Pack .Op2 4) (some "PCR") (some "Select Lockdown TLB Entry for write"),
  RDESC_A15 (Pack .CRn 15 ||| Pack .Op1 5 ||| Pack .CRm 5 ||| Pack .Op2 2) (some "PCR") (some "Main TLB VA register"),
  RDESC_A15 (Pack .CRn 15 ||| Pack .Op1 5 ||| Pack .CRm 6 ||| Pack .Op2 2) (some "PCR") (some "Main TLB PA register"),
  RDESC_A15 (Pack .CRn 15 ||| Pack .Op1 5 ||| Pack .CRm 7 ||| Pack .Op2 2) (some "PCR") (some "Main TLB Attribute register"),
  RDESC_CR4 (Pack .CRn 15 ||| Pack .Op1 0 ||| Pack .CRm 14 ||| Pack .Op2 0) (some "CacheSizeOverride") (some "Cache Size Override")
]

/-! ## Decoding -/

/-- Standard output: the lines written so far, oldest first. -/
abbrev Stdout := List String

/-- One `printf` call whose expanded text is `line` followed by a newline. -/
def printf (line : String) (out : Stdout) : Stdout := out ++ [line]

/-- The conversion `%d` for the (small, non-negative) values printed here. -/
def fmt_d (n : Nat) : String := toString n

/-- Text of the format `"%s, %d, %d, r%d, cr%d, cr%d, {%d}\n"` without the newline. -/
def fmt_asm (s : String) (a b c d e f : Nat) : String :=
  s ++ ", " ++ fmt_d a ++ ", " ++ fmt_d b ++ ", r" ++ fmt_d c ++ ", cr" ++ fmt_d d ++
    ", cr" ++ fmt_d e ++ ", \x7b" ++ fmt_d f ++ "\x7d"

/-- Text of the format `"%s, CRn=%d Op1=%d CRm=%d Op2=%d Rd=%d CP=%d\n"` without the newline. -/
def fmt_kv (s : String) (a b c d e f : Nat) : String :=
  s ++ ", CRn=" ++ fmt_d a ++ " Op1=" ++ fmt_d b ++ " CRm=" ++ fmt_d c ++ " Op2=" ++ fmt_d d ++
    " Rd=" ++ fmt_d e ++ " CP=" ++ fmt_d f

/-- Text of the format `"[%s] : %s\n"` without the newline. -/
def fmt_desc (n c : String) : String := "[" ++ n ++ "] : " ++ c

/-- The `for` loop of `DecodeMrcAndPrint` over the indices of `RegDescs`, from
index `i` on; `fuel` bounds the number of iterations and `onMatch` is the body
of the `if (opcodeMatchMask == RegDescs[i].mask)` statement as a state update. -/
def forRegDescs {σ : Type} (onMatch : RegDesc → σ → σ) (opcodeMatchMask : Nat) :
    Nat → Nat → σ → σ
  | 0, _, st => st
  | fuel + 1, i, st =>
    if h : i < ARRAY_SIZE RegDescs then
      let d := RegDescs.get ⟨i, h⟩
      let st1 := if opcodeMatchMask == d.mask then onMatch d st else st
      forRegDescs onMatch opcodeMatchMask fuel (i + 1) st1
    else st

/-- The line that the loop body prints for a matching descriptor. -/
def descLine (d : RegDesc) : String :=
  fmt_desc (STRING_UNWRAP d.name) (STRING_UNWRAP d.comment)

/-- The first summary line. -/
def asmLine (opcode : Nat) : String :=
  fmt_asm (if Extract .Ldop opcode != 0 then "MRC" else "MCR")
    (Extract .Cp opcode) (Extract .Op1 opcode) (Extract .Rd opcode)
    (Extract .CRn opcode) (Extract .CRm opcode) (Extract .Op2 opcode)

/-- The second summary line. -/
def kvLine (opcode : Nat) : String :=
  fmt_kv (if Extract .Ldop opcode != 0 then "MRC" else "MCR")
    (Extract .CRn opcode) (Extract .Op1 opcode) (Extract .CRm opcode)
    (Extract .Op2 opcode) (Extract .Rd opcode) (Extract .Cp opcode)

/-- The function `DecodeMrcAndPrint`, as a transformer of standard output. -/
def DecodeMrcAndPrint (opcode : Nat) (out : Stdout) : Stdout :=
  if !is_mcr_or_mrc opcode then out
  else
    let out1 := printf (asmLine opcode) out
    let out2 := printf (kvLine opcode) out1
    let opcodeMatchMask := opcode &&& Mask_Op1_CRm_Op2_CRn
    forRegDescs (fun d o => printf (descLine d) o) opcodeMatchMask (ARRAY_SIZE RegDescs) 0 out2

/-- The descriptors for which the body of the lookup loop of `DecodeMrcAndPrint`
runs on `opcode`, in the order in which the loop reaches them. -/
def LookupAll (opcode : Nat) : List RegDesc :=
  forRegDescs (fun d acc => acc ++ [d]) (opcode &&& Mask_Op1_CRm_Op2_CRn)
    (ARRAY_SIZE RegDescs) 0 []

/-- The array `test_mcrs` of `DemoSomeMcrs`. -/
def test_mcrs : List Nat := [
  Pack .CRn 0 ||| Pack .Op1 0 ||| Pack .CRm 0 ||| Pack .Op2 0 ||| Pack .Rd 5 ||| Pack .Cp 15
    ||| MaskMcrMrc,
  0xee011f10,
  0xee061f12, 0xee062f11, 0xee064f91, 0xee063f51,
  0xee061f12, 0xee062f11, 0xee064f91, 0xee063f51,
  0xee061f12, 0xee062f11, 0xee064f91, 0xee063f51,
  0xee061f12, 0xee062f11, 0xee064f91, 0xee063f51,
  0xee061f12, 0xee062f11, 0xee064f91, 0xee063f51,
  0xee061f12, 0xee062f11, 0xee064f91, 0xee063f51,
  0xee061f12, 0xee062f11, 0xee064f91, 0xee063f51,
  0xee061f12, 0xee062f11, 0xee064f91, 0xee063f51,
  0xee011f10,
  0xee010f10,
  0xee000e15
]

/-- Field widths in bits as the specification lists them (the source only has
the masks `Mask_1bit`, `Mask_3bits`, `Mask_4bits`). -/
def specWidth : Field → Nat
  | .Op1 => 3
  | .Ldop => 1
  | .CRn => 4
  | .Rd => 4
  | .Cp => 4
  | .Op2 => 3
  | .CRm => 4
/-- Field offsets in bits as the specification lists them: `Op1` 3 bits at 21,
`LdOp` 1 bit at 20, `CRn` 4 bits at 16, `Rd` 4 bits at 12, `Cp` 4 bits at 8,
`Op2` 3 bits at 5, `CRm` 4 bits at 0 (the widths are `specWidth`). -/
def specOffset : Field → Nat
  | .Op1 => 21
  | .Ldop => 20
  | .CRn => 16
  | .Rd => 12
  | .Cp => 8
  | .Op2 => 5
  | .CRm => 0

/-- State of the `for` loop of `RunFullTest`: the `uint32_t` counter `i` and
standard output. -/
structure FullTestState where
  i : Nat
  out : Stdout

/-- One pass through the loop of `RunFullTest`, `for (uint32_t i = 0; i <=
0xffffffff; i++) DecodeMrcAndPrint(i);`: `none` when the guard `i <= 0xffffffff`
fails and the loop is left, otherwise the state after the body and after the
increment of the 32-bit counter. -/
def RunFullTest_step (s : FullTestState) : Option FullTestState :=
  if s.i ≤ 0xffffffff then
    some { i := (s.i + 1) % 2 ^ 32, out := DecodeMrcAndPrint s.i s.out }
  else none

/-- The state of `RunFullTest` after `n` passes through its loop, started in
state `s`; `none` once the loop has been left. -/
def RunFullTest_passes : Nat → FullTestState → Option FullTestState
  | 0, s => some s
  | n + 1, s => (RunFullTest_passes n s).bind RunFullTest_step

/-- The loop of `RunFullTest` run from state `s` for at most `fuel` passes: the
output with which the loop is left, or `none` if it is still running when the
fuel is used up. -/
def RunFullTest_loop : Nat → FullTestState → Option Stdout
  | 0, _ => none
  | fuel + 1, s =>
    match RunFullTest_step s with
    | none => some s.out
    | some s1 => RunFullTest_loop fuel s1

/-- The function `RunFullTest`, started with output `out` and run for at most
`fuel` passes of its loop. -/
def RunFullTest (fuel : Nat) (out : Stdout) : Option Stdout :=
  RunFullTest_loop fuel { i := 0, out := out }

-- Evaluating the loop over the whole catalog needs a deeper recursion limit.
set_option maxRecDepth 4000

/-! ## Auxiliary lemmas: bit arithmetic -/

theorem and_field_mask (v w s : Nat) :
    v &&& ((2 ^ w - 1) <<< s) = (v / 2 ^ s % 2 ^ w) * 2 ^ s := by
  rw [← Nat.shiftRight_eq_div_pow, ← Nat.and_pow_two_sub_one_eq_mod, ← Nat.shiftLeft_eq]
  apply Nat.eq_of_testBit_eq
  intro i
  simp only [Nat.testBit_and, Nat.testBit_shiftLeft, Nat.testBit_shiftRight,
    Nat.testBit_two_pow_sub_one]
  by_cases h : s ≤ i
  · have : s + (i - s) = i := by omega
    simp [h, this]
  · simp [h]

theorem or_eq_add_of_lt (a b k : Nat) (h : b < 2 ^ k) : a * 2 ^ k ||| b = a * 2 ^ k + b := by
  rw [Nat.mul_comm a, Nat.mul_add_lt_is_or h]

theorem Extract_eq (f : Field) (v : Nat) :
    Extract f v = v / 2 ^ ShiftWidth f % 2 ^ specWidth f := by
  unfold Extract
  rw [Nat.shiftRight_eq_div_pow, ← Nat.and_pow_two_sub_one_eq_mod]
  cases f <;> rfl

theorem key_eq (v : Nat) :
    v &&& Mask_Op1_CRm_Op2_CRn
      = (v / 2 ^ 21 % 2 ^ 3) * 2 ^ 21 + (v / 2 ^ 16 % 2 ^ 4) * 2 ^ 16
        + (v / 2 ^ 5 % 2 ^ 3) * 2 ^ 5 + v % 2 ^ 4 := by
  have hM : Mask_Op1_CRm_Op2_CRn
      = ((2 ^ 3 - 1) <<< 21) ||| (((2 ^ 4 - 1) <<< 16) ||| (((2 ^ 3 - 1) <<< 5) ||| ((2 ^ 4 - 1) <<< 0))) := by
    rfl
  rw [hM, Nat.and_or_distrib_left, Nat.and_or_distrib_left, Nat.and_or_distrib_left,
    and_field_mask, and_field_mask, and_field_mask, and_field_mask]
  have h0 : v / 2 ^ 0 % 2 ^ 4 * 2 ^ 0 = v % 2 ^ 4 := by simp
  rw [h0, or_eq_add_of_lt _ _ 5 (by omega), or_eq_add_of_lt _ _ 16 (by omega),
    or_eq_add_of_lt _ _ 21 (by omega)]
  omega

theorem classify_eq (v : Nat) :
    v &&& MaskMcrMrc = (v / 2 ^ 25 % 2 ^ 3) * 2 ^ 25 + (v / 2 ^ 8 % 2 ^ 4) * 2 ^ 8 := by
  have hM : MaskMcrMrc = ((2 ^ 3 - 1) <<< 25) ||| ((2 ^ 4 - 1) <<< 8) := by rfl
  rw [hM, Nat.and_or_distrib_left, and_field_mask, and_field_mask,
    or_eq_add_of_lt _ _ 25 (by omega)]

theorem is_mcr_or_mrc_iff (v : Nat) :
    is_mcr_or_mrc v = true ↔ v / 2 ^ 25 % 2 ^ 3 = 7 ∧ v / 2 ^ 8 % 2 ^ 4 = 15 := by
  unfold is_mcr_or_mrc
  rw [classify_eq]
  have hM : MaskMcrMrc = 234884864 := by rfl
  rw [hM]
  simp only [beq_iff_eq]
  omega

theorem key_eq_fields (v : Nat) :
    v &&& Mask_Op1_CRm_Op2_CRn
      = Extract .Op1 v * 2 ^ 21 + Extract .CRn v * 2 ^ 16 + Extract .Op2 v * 2 ^ 5
        + Extract .CRm v := by
  have e1 : Extract .Op1 v = v / 2 ^ 21 % 2 ^ 3 := Extract_eq .Op1 v
  have e2 : Extract .CRn v = v / 2 ^ 16 % 2 ^ 4 := Extract_eq .CRn v
  have e3 : Extract .CRm v = v % 2 ^ 4 := by
    have h := Extract_eq .CRm v
    have h0 : ShiftWidth .CRm = 0 := rfl
    rw [h0, Nat.pow_zero, Nat.div_one] at h
    exact h
  have e4 : Extract .Op2 v = v / 2 ^ 5 % 2 ^ 3 := Extract_eq .Op2 v
  rw [key_eq, e1, e2, e3, e4]

theorem key_eq_of_fields (a b : Nat)
    (h1 : Extract .Op1 a = Extract .Op1 b) (h2 : Extract .CRn a = Extract .CRn b)
    (h3 : Extract .CRm a = Extract .CRm b) (h4 : Extract .Op2 a = Extract .Op2 b) :
    a &&& Mask_Op1_CRm_Op2_CRn = b &&& Mask_Op1_CRm_Op2_CRn := by
  rw [key_eq_fields, key_eq_fields, h1, h2, h3, h4]

theorem Pack_eq (f : Field) (x : Nat) :
    Pack f x = (x % 2 ^ specWidth f) * 2 ^ ShiftWidth f := by
  have hm : Mask f = 2 ^ specWidth f - 1 := by cases f <;> rfl
  unfold Pack
  rw [hm, Nat.and_pow_two_sub_one_eq_mod, Nat.shiftLeft_eq]
  have hlt : x % 2 ^ specWidth f < 2 ^ specWidth f := Nat.mod_lt _ (Nat.two_pow_pos _)
  apply Nat.mod_eq_of_lt
  cases f <;> simp only [specWidth, ShiftWidth, ShiftWidth_Op1, ShiftWidth_Ldop, ShiftWidth_CRn,
    ShiftWidth_Rd, ShiftWidth_Cp, ShiftWidth_Op2, ShiftWidth_CRm] at hlt ⊢ <;> omega

theorem Mask_eq (f : Field) : Mask f = 2 ^ specWidth f - 1 := by cases f <;> rfl

theorem Extract_Pack (f : Field) (x : Nat) : Extract f (Pack f x) = x &&& Mask f := by
  have hlt : (x &&& Mask f) <<< ShiftWidth f < 2 ^ 32 := by
    have h1 : x &&& Mask f ≤ Mask f := Nat.and_le_right
    rw [Nat.shiftLeft_eq]
    cases f <;> simp only [Mask, Mask_Op1, Mask_Ldop, Mask_CRn, Mask_Rd, Mask_Cp, Mask_Op2,
      Mask_CRm, Mask_1bit, Mask_3bits, Mask_4bits, B0001, B0111, B1111, ShiftWidth, ShiftWidth_Op1,
      ShiftWidth_Ldop, ShiftWidth_CRn, ShiftWidth_Rd, ShiftWidth_Cp, ShiftWidth_Op2,
      ShiftWidth_CRm] at h1 ⊢ <;> omega
  unfold Extract Pack
  rw [Nat.mod_eq_of_lt hlt, Nat.shiftLeft_shiftRight, Nat.and_assoc, Nat.and_self]

theorem Pack_and_key (f : Field) (x : Nat) (hf : f = .Ldop ∨ f = .Rd ∨ f = .Cp) :
    Pack f x &&& Mask_Op1_CRm_Op2_CRn = 0 := by
  rw [key_eq, Pack_eq]
  have hlt : x % 2 ^ specWidth f < 2 ^ specWidth f := Nat.mod_lt _ (Nat.two_pow_pos _)
  rcases hf with h | h | h <;> subst h <;>
    simp only [specWidth, ShiftWidth, ShiftWidth_Ldop, ShiftWidth_Rd, ShiftWidth_Cp] at hlt ⊢ <;>
    omega

theorem LookupAll_congr (a b : Nat)
    (h : a &&& Mask_Op1_CRm_Op2_CRn = b &&& Mask_Op1_CRm_Op2_CRn) :
    LookupAll a = LookupAll b := by
  unfold LookupAll
  rw [h]

theorem LookupAll_xor (a p : Nat) (h : p &&& Mask_Op1_CRm_Op2_CRn = 0) :
    LookupAll (a ^^^ p) = LookupAll a := by
  apply LookupAll_congr
  rw [Nat.and_xor_distrib_right, h, Nat.xor_zero]

/-! ## Auxiliary lemmas: the lookup loop -/

theorem forRegDescs_eq_foldl {σ : Type} (onMatch : RegDesc → σ → σ) (key : Nat) :
    ∀ (fuel i : Nat) (st : σ), ARRAY_SIZE RegDescs ≤ i + fuel →
      forRegDescs onMatch key fuel i st
        = (((RegDescs.drop i).filter (fun d => key == d.mask)).foldl
            (fun s d => onMatch d s) st) := by
  intro fuel
  induction fuel with
  | zero =>
    intro i st h
    have hi : RegDescs.length ≤ i := h
    rw [List.drop_eq_nil_of_le hi]
    rfl
  | succ n ih =>
    intro i st h
    unfold forRegDescs
    rcases Nat.lt_or_ge i (ARRAY_SIZE RegDescs) with hi | hi
    · have hlen : i < RegDescs.length := hi
      rw [dif_pos hi, List.drop_eq_getElem_cons hlen, List.filter_cons]
      simp only []
      rw [ih (i + 1) _ (by omega)]
      by_cases hm : (key == (RegDescs.get ⟨i, hi⟩).mask) = true
      · rw [if_pos hm]
        have hm2 : (key == RegDescs[i].mask) = true := hm
        rw [if_pos hm2]
        rfl
      · rw [if_neg hm]
        have hm2 : ¬ (key == RegDescs[i].mask) = true := hm
        rw [if_neg hm2]
    · have hlen : RegDescs.length ≤ i := hi
      rw [dif_neg (Nat.not_lt.mpr hi), List.drop_eq_nil_of_le hlen]
      rfl

theorem foldl_snoc_eq {α : Type} (l : List α) :
    ∀ acc : List α, l.foldl (fun a d => a ++ [d]) acc = acc ++ l := by
  induction l with
  | nil => intro acc; simp
  | cons x xs ih => intro acc; simp [ih]

theorem foldl_printf_eq (g : RegDesc → String) (l : List RegDesc) :
    ∀ out : Stdout, l.foldl (fun o d => printf (g d) o) out = out ++ l.map g := by
  induction l with
  | nil => intro out; simp
  | cons x xs ih =>
    intro out
    rw [List.foldl_cons, ih]
    simp [printf]

theorem LookupAll_eq_filter (opcode : Nat) :
    LookupAll opcode
      = RegDescs.filter (fun d => (opcode &&& Mask_Op1_CRm_Op2_CRn) == d.mask) := by
  unfold LookupAll
  rw [forRegDescs_eq_foldl _ _ _ 0 _ (by omega), foldl_snoc_eq]
  simp

theorem printLoop_eq (key : Nat) (out : Stdout) :
    forRegDescs (fun d o => printf (descLine d) o) key (ARRAY_SIZE RegDescs) 0 out
      = out ++ (RegDescs.filter (fun d => key == d.mask)).map descLine := by
  rw [forRegDescs_eq_foldl _ _ _ 0 _ (by omega), foldl_printf_eq]
  simp

theorem DecodeMrcAndPrint_eq (opcode : Nat) (out : Stdout) (h : is_mcr_or_mrc opcode = true) :
    DecodeMrcAndPrint opcode out
      = out ++ [asmLine opcode, kvLine opcode] ++ (LookupAll opcode).map descLine := by
  unfold DecodeMrcAndPrint
  simp only [h, Bool.not_true, Bool.false_eq_true, if_false]
  rw [printLoop_eq, LookupAll_eq_filter]
  simp [printf]

theorem LookupAll_eq_catalog_filter (opcode : Nat) :
    LookupAll opcode
      = RegDescs.filter (fun e => e.mask == (opcode &&& Mask_Op1_CRm_Op2_CRn)) := by
  rw [LookupAll_eq_filter]
  congr 1
  funext e
  exact Bool.beq_comm

theorem mem_LookupAll (e : RegDesc) (v : Nat) (he : e ∈ RegDescs)
    (hv : v &&& Mask_Op1_CRm_Op2_CRn = e.mask) : e ∈ LookupAll v := by
  rw [LookupAll_eq_catalog_filter, List.mem_filter, beq_iff_eq]
  exact ⟨he, hv.symm⟩

theorem shiftRight_xor (a b s : Nat) : (a ^^^ b) >>> s = (a >>> s) ^^^ (b >>> s) := by
  apply Nat.eq_of_testBit_eq
  intro i
  simp only [Nat.testBit_shiftRight, Nat.testBit_xor]

theorem Extract_xor_Pack (f : Field) (a x : Nat) :
    Extract f (a ^^^ Pack f x) = Extract f a ^^^ (x &&& Mask f) := by
  rw [← Extract_Pack f x]
  unfold Extract
  rw [shiftRight_xor, Nat.and_xor_distrib_right]

theorem Pack_lt (f : Field) (x : Nat) : Pack f x < 2 ^ 32 :=
  Nat.mod_lt _ (Nat.two_pow_pos 32)

theorem catalog_keys_classify :
    ∀ e ∈ RegDescs, (e.mask ||| MaskMcrMrc) < 2 ^ 32
      ∧ is_mcr_or_mrc (e.mask ||| MaskMcrMrc) = true
      ∧ (e.mask ||| MaskMcrMrc) &&& Mask_Op1_CRm_Op2_CRn = e.mask := by
  decide

theorem catalog_isaMask_kinds :
    ∀ e ∈ RegDescs,
      e.isaMask = 0xffffffff ∨ e.isaMask = ArmIsaCortexA15 ∨ e.isaMask = ArmIsaCortexR4 := by
  decide

/-! ## Classification -/

/-- C1, evaluated at the failing input: bits 24-27 of the word `0xef000f00` are
`0b1111`, not `0b1110` (bits 8-11 are `0b1111`), and `is_mcr_or_mrc` still
accepts it, because bit 24 is clear in `MaskMcrMrc` and so is never tested. -/
theorem is_mcr_or_mrc_accepts_0xef000f00 :
    0xef000f00 < 2 ^ 32 ∧ (0xef000f00 >>> 24) &&& 0xf = 0b1111
      ∧ (0xef000f00 >>> 24) &&& 0xf ≠ 0b1110 ∧ (0xef000f00 >>> 8) &&& 0xf = 0b1111
      ∧ MaskMcrMrc &&& (1 <<< 24) = 0
      ∧ is_mcr_or_mrc 0xef000f00 = true := by
  decide

/-! ## Concrete decodes -/

/-- C2 as stated fails: the decode of `0xee011f10` does not have `CRn = 0` with
`MIDR` as its only catalog match. -/
theorem decode_0xee011f10_not_MIDR :
    ¬ (is_mcr_or_mrc 0xee011f10 = true ∧ Extract .Ldop 0xee011f10 = 0
        ∧ Extract .Cp 0xee011f10 = 15 ∧ Extract .Op1 0xee011f10 = 0
        ∧ Extract .Rd 0xee011f10 = 1 ∧ Extract .CRn 0xee011f10 = 0
        ∧ Extract .CRm 0xee011f10 = 0 ∧ Extract .Op2 0xee011f10 = 0
        ∧ LookupAll 0xee011f10
            = [RDESC_ALL (Pack .CRn 0 ||| Pack .Op1 0 ||| Pack .CRm 0 ||| Pack .Op2 0)
                (some "MIDR") (some "Main ID Register")]) := by
  intro h
  have hCRn : Extract .CRn 0xee011f10 = 1 := rfl
  have h0 : Extract .CRn 0xee011f10 = 0 := h.2.2.2.2.2.1
  rw [hCRn] at h0
  exact absurd h0 (by decide)

/-- C2 as amended: `0xee011f10` classifies as MCR/MRC, its fields are `LdOp = 0`
(MCR), `Cp = 15`, `Op1 = 0`, `Rd = 1`, `CRn = 1`, `CRm = 0`, `Op2 = 0`, and
the lookup returns exactly one entry, `SCTLR` ("System Control Register"). -/
theorem decode_0xee011f10 :
    is_mcr_or_mrc 0xee011f10 = true ∧ Extract .Ldop 0xee011f10 = 0
      ∧ Extract .Cp 0xee011f10 = 15 ∧ Extract .Op1 0xee011f10 = 0
      ∧ Extract .Rd 0xee011f10 = 1 ∧ Extract .CRn 0xee011f10 = 1
      ∧ Extract .CRm 0xee011f10 = 0 ∧ Extract .Op2 0xee011f10 = 0
      ∧ LookupAll 0xee011f10
          = [RDESC_ALL (Pack .CRn 1 ||| Pack .Op1 0 ||| Pack .CRm 0 ||| Pack .Op2 0)
              (some "SCTLR") (some "System Control Register")] :=
  ⟨rfl, rfl, rfl, rfl, rfl, rfl, rfl, rfl, by decide⟩

/-- C3 as stated fails: the decode of `0xee061f12` does not have `CRm = 1`,
`Op2 = 2` with `MPU RSE` as its catalog match. -/
theorem decode_0xee061f12_not_MPU_RSE :
    ¬ (Extract .CRn 0xee061f12 = 6 ∧ Extract .Op1 0xee061f12 = 0
        ∧ Extract .CRm 0xee061f12 = 1 ∧ Extract .Op2 0xee061f12 = 2
        ∧ LookupAll 0xee061f12
            = [RDESC_CR4 (Pack .CRn 6 ||| Pack .Op1 0 ||| Pack .CRm 1 ||| Pack .Op2 2)
                (some "MPU RSE") (some "MPU Region Size and Enable")]) := by
  intro h
  have hCRm : Extract .CRm 0xee061f12 = 2 := rfl
  have h1 : Extract .CRm 0xee061f12 = 1 := h.2.2.1
  rw [hCRm] at h1
  exact absurd h1 (by decide)

/-- C3 as amended: the naming fields of `0xee061f12` are `CRn = 6`, `Op1 = 0`,
`CRm = 2`, `Op2 = 0`, and the lookup returns the entry `MPU RN`
("MPU Memory Region Number"), whose `isaMask` is Cortex-R4 only: no ISA
filtering is applied. -/
theorem decode_0xee061f12 :
    Extract .CRn 0xee061f12 = 6 ∧ Extract .Op1 0xee061f12 = 0
      ∧ Extract .CRm 0xee061f12 = 2 ∧ Extract .Op2 0xee061f12 = 0
      ∧ LookupAll 0xee061f12
          = [RDESC_CR4 (Pack .CRn 6 ||| Pack .Op1 0 ||| Pack .CRm 2 ||| Pack .Op2 0)
              (some "MPU RN") (some "MPU Memory Region Number")]
      ∧ (LookupAll 0xee061f12).map (fun d => d.isaMask) = [ArmIsaCortexR4] :=
  ⟨rfl, rfl, rfl, rfl, by decide, by decide⟩

/-! ## The lookup loop -/

/-- C4: for every 32-bit opcode the descriptors reached by the lookup loop are
exactly the catalog entries whose stored mask equals
`opcode & Mask_Op1_CRm_Op2_CRn`, in catalog declaration order (the catalog
filtered by key equality); the descriptor lines the loop prints are those of
that sequence whatever was printed before, so a second lookup of the same
opcode prints the same lines again. -/
theorem lookup_is_catalog_filter (opcode : Nat) (_h32 : opcode < 2 ^ 32) :
    LookupAll opcode
        = RegDescs.filter (fun e => e.mask == (opcode &&& Mask_Op1_CRm_Op2_CRn))
      ∧ (∀ e, e ∈ LookupAll opcode
            ↔ e ∈ RegDescs ∧ e.mask = opcode &&& Mask_Op1_CRm_Op2_CRn)
      ∧ List.Sublist (LookupAll opcode) RegDescs
      ∧ (∀ out : Stdout,
          forRegDescs (fun d o => printf (descLine d) o) (opcode &&& Mask_Op1_CRm_Op2_CRn)
              (ARRAY_SIZE RegDescs) 0 out
            = out ++ (LookupAll opcode).map descLine) := by
  have hf := LookupAll_eq_catalog_filter opcode
  refine ⟨hf, ?_, ?_, ?_⟩
  · intro e
    rw [hf, List.mem_filter, beq_iff_eq]
  · rw [hf]
    exact List.filter_sublist _
  · intro out
    rw [printLoop_eq, LookupAll_eq_filter]

/-- Witness for C4 at the opcode `0xee011f10`. -/
theorem lookup_is_catalog_filter_witness :
    LookupAll 0xee011f10
        = RegDescs.filter (fun e => e.mask == (0xee011f10 &&& Mask_Op1_CRm_Op2_CRn)) :=
  (lookup_is_catalog_filter 0xee011f10 (by decide)).1

/-! ## Pack and Extract -/

/-- C5: for each of the seven fields `f` and every 32-bit `x`,
`Extract(f, Pack(f, x)) = x & Mask_f`, and `Extract(f, Pack(f, x)) = x`
whenever `x < 2 ^ width(f)`. -/
theorem Extract_Pack_roundtrip (f : Field) (x : Nat) (_h32 : x < 2 ^ 32) :
    Extract f (Pack f x) = x &&& Mask f
      ∧ (x < 2 ^ specWidth f → Extract f (Pack f x) = x) := by
  refine ⟨Extract_Pack f x, ?_⟩
  intro hx
  rw [Extract_Pack, Mask_eq]
  exact Nat.and_pow_two_sub_one_of_lt_two_pow hx

/-- Witness for C5 at the field `CRn` and the value 7. -/
theorem Extract_Pack_roundtrip_witness :
    Extract .CRn (Pack .CRn 7) = 7 &&& Mask .CRn ∧ Extract .CRn (Pack .CRn 7) = 7 :=
  ⟨(Extract_Pack_roundtrip .CRn 7 (by decide)).1,
    (Extract_Pack_roundtrip .CRn 7 (by decide)).2 (by decide)⟩

/-! ## What the lookup depends on -/

/-- C6: two 32-bit opcodes with equal `Op1`, `CRn`, `CRm` and `Op2` fields have
the same sequence of matching catalog entries; in particular changing the `LdOp`
bit, the `Rd` field or the `Cp` field (an exclusive or with `Pack` of that field,
which changes that field by `x & Mask` and keeps the word in 32 bits) never
changes which descriptors match. -/
theorem lookup_depends_only_on_naming_fields (a b : Nat) (ha : a < 2 ^ 32) (_hb : b < 2 ^ 32)
    (hOp1 : Extract .Op1 a = Extract .Op1 b) (hCRn : Extract .CRn a = Extract .CRn b)
    (hCRm : Extract .CRm a = Extract .CRm b) (hOp2 : Extract .Op2 a = Extract .Op2 b) :
    LookupAll a = LookupAll b
      ∧ ∀ f, f = Field.Ldop ∨ f = Field.Rd ∨ f = Field.Cp → ∀ x,
          a ^^^ Pack f x < 2 ^ 32
            ∧ Extract f (a ^^^ Pack f x) = Extract f a ^^^ (x &&& Mask f)
            ∧ LookupAll (a ^^^ Pack f x) = LookupAll a := by
  refine ⟨LookupAll_congr a b (key_eq_of_fields a b hOp1 hCRn hCRm hOp2), ?_⟩
  intro f hf x
  exact ⟨Nat.xor_lt_two_pow ha (Pack_lt f x), Extract_xor_Pack f a x,
    LookupAll_xor a (Pack f x) (Pack_and_key f x hf)⟩

/-- Witness for C6: `0xee011f10` and `0xfe11f310` agree on the four naming fields
(they differ in the condition bits, `LdOp`, `Rd` and `Cp`), and flipping the `LdOp` bit of `0xee011f10` keeps its lookup result. -/
theorem lookup_depends_only_on_naming_fields_witness :
    LookupAll 0xee011f10 = LookupAll 0xfe11f310
      ∧ LookupAll (0xee011f10 ^^^ Pack .Ldop 1) = LookupAll 0xee011f10 :=
  ⟨(lookup_depends_only_on_naming_fields 0xee011f10 0xfe11f310 (by decide) (by decide)
      rfl rfl rfl rfl).1,
    ((lookup_depends_only_on_naming_fields 0xee011f10 0xfe11f310 (by decide) (by decide)
      rfl rfl rfl rfl).2 .Ldop (Or.inl rfl) 1).2.2⟩

/-! ## Output of `DecodeMrcAndPrint` -/

/-- C7: for every 32-bit opcode that `is_mcr_or_mrc` rejects, `DecodeMrcAndPrint`
leaves standard output as it was (no summary line, no descriptor line), even
when the four-field key of the opcode is a catalog key: opcode `0` is rejected
and prints nothing although its key is that of `MIDR`. -/
theorem no_output_unless_mcr_or_mrc :
    (∀ opcode out, opcode < 2 ^ 32 → is_mcr_or_mrc opcode = false →
        DecodeMrcAndPrint opcode out = out)
      ∧ is_mcr_or_mrc 0 = false
      ∧ DecodeMrcAndPrint 0 [] = []
      ∧ LookupAll 0
          = [RDESC_ALL (Pack .CRn 0 ||| Pack .Op1 0 ||| Pack .CRm 0 ||| Pack .Op2 0)
              (some "MIDR") (some "Main ID Register")] := by
  refine ⟨?_, by decide, by decide, by decide⟩
  intro opcode out _ hno
  unfold DecodeMrcAndPrint
  rw [hno]
  rfl

/-- Witness for C7 at the opcode `0xee000e15` (its `Cp` field is 14). -/
theorem no_output_unless_mcr_or_mrc_witness :
    DecodeMrcAndPrint 0xee000e15 ["Decoding: ee000e15"] = ["Decoding: ee000e15"] :=
  no_output_unless_mcr_or_mrc.1 0xee000e15 ["Decoding: ee000e15"] (by decide) (by decide)

/-- C8: for every 32-bit opcode classified as MCR/MRC, `DecodeMrcAndPrint` appends
exactly `2 + n` lines, `n` being the number of catalog entries whose mask equals
the four-field key of the opcode: the two summary lines first, then one
descriptor line per match in catalog order; `0xee040f10` (`CRn = 4`) matches
no entry and prints the two summary lines only. -/
theorem output_is_summary_then_matches :
    (∀ opcode out, opcode < 2 ^ 32 → is_mcr_or_mrc opcode = true →
        DecodeMrcAndPrint opcode out
            = out ++ [asmLine opcode, kvLine opcode]
                ++ (RegDescs.filter
                      (fun e => e.mask == (opcode &&& Mask_Op1_CRm_Op2_CRn))).map descLine
          ∧ (DecodeMrcAndPrint opcode out).length
              = out.length + (2 + (RegDescs.filter
                      (fun e => e.mask == (opcode &&& Mask_Op1_CRm_Op2_CRn))).length))
      ∧ is_mcr_or_mrc 0xee040f10 = true
      ∧ Extract .CRn 0xee040f10 = 4
      ∧ RegDescs.filter (fun e => e.mask == (0xee040f10 &&& Mask_Op1_CRm_Op2_CRn)) = []
      ∧ DecodeMrcAndPrint 0xee040f10 []
          = ["MCR, 15, 0, r0, cr4, cr0, \x7b0\x7d", "MCR, CRn=4 Op1=0 CRm=0 Op2=0 Rd=0 CP=15"] := by
  refine ⟨?_, by decide, by decide, by decide, by decide⟩
  intro opcode out _ hmcr
  have h := DecodeMrcAndPrint_eq opcode out hmcr
  rw [LookupAll_eq_catalog_filter] at h
  refine ⟨h, ?_⟩
  rw [h]
  simp only [List.length_append, List.length_map, List.length_cons, List.length_nil]
  omega

/-- Witness for C8 at the opcode `0xee011f10`, printed after the line of `DemoSomeMcrs`. -/
theorem output_is_summary_then_matches_witness :
    (DecodeMrcAndPrint 0xee011f10 ["Decoding: ee011f10"]).length
      = ["Decoding: ee011f10"].length + (2 + (RegDescs.filter
              (fun e => e.mask == (0xee011f10 &&& Mask_Op1_CRm_Op2_CRn))).length) :=
  (output_is_summary_then_matches.1 0xee011f10 ["Decoding: ee011f10"]
    (by decide) (by decide)).2

/-! ## ISA tags and duplicate keys -/

/-- C9 as stated fails in its example: the first demo opcode is `0x0e005f00`,
which is not `e.mask | MaskMcrMrc` for the `MIDR` entry (that is `0x0e000f00`)
nor for any other catalog entry. -/
theorem first_demo_opcode_not_mask_or_MaskMcrMrc :
    ¬ (test_mcrs.head?
          = some ((RDESC_ALL (Pack .CRn 0 ||| Pack .Op1 0 ||| Pack .CRm 0 ||| Pack .Op2 0)
                    (some "MIDR") (some "Main ID Register")).mask ||| MaskMcrMrc))
      ∧ ¬ (∃ e ∈ RegDescs, test_mcrs.head? = some (e.mask ||| MaskMcrMrc))
      ∧ test_mcrs.head? = some 0x0e005f00 := by
  decide

/-- C9 as amended: no ISA filtering happens and no entry is unreachable. For
every catalog entry `e`, whose `isaMask` is all, Cortex-A15 or Cortex-R4, every
32-bit opcode `v` with `v & Mask_Op1_CRm_Op2_CRn = e.mask` has `e` among its
lookup results, and `e.mask | MaskMcrMrc` is such an opcode that also
classifies as MCR/MRC. The first demo opcode is the `MIDR` mask or-ed with
`Pack(Rd, 5)` and `MaskMcrMrc`; it classifies as MCR/MRC and looks up `MIDR`. -/
theorem every_entry_reachable_without_isa_filter :
    (∀ e ∈ RegDescs, ∀ v, v < 2 ^ 32 → v &&& Mask_Op1_CRm_Op2_CRn = e.mask →
        e ∈ LookupAll v)
      ∧ (∀ e ∈ RegDescs,
          e.isaMask = 0xffffffff ∨ e.isaMask = ArmIsaCortexA15 ∨ e.isaMask = ArmIsaCortexR4)
      ∧ (∀ e ∈ RegDescs, (e.mask ||| MaskMcrMrc) < 2 ^ 32
          ∧ is_mcr_or_mrc (e.mask ||| MaskMcrMrc) = true
          ∧ (e.mask ||| MaskMcrMrc) &&& Mask_Op1_CRm_Op2_CRn = e.mask
          ∧ e ∈ LookupAll (e.mask ||| MaskMcrMrc))
      ∧ test_mcrs.head?
          = some ((RDESC_ALL (Pack .CRn 0 ||| Pack .Op1 0 ||| Pack .CRm 0 ||| Pack .Op2 0)
                    (some "MIDR") (some "Main ID Register")).mask
                  ||| Pack .Rd 5 ||| MaskMcrMrc)
      ∧ is_mcr_or_mrc 0x0e005f00 = true
      ∧ LookupAll 0x0e005f00
          = [RDESC_ALL (Pack .CRn 0 ||| Pack .Op1 0 ||| Pack .CRm 0 ||| Pack .Op2 0)
              (some "MIDR") (some "Main ID Register")] := by
  refine ⟨?_, catalog_isaMask_kinds, ?_, by decide, by decide, by decide⟩
  · intro e he v _ hv
    exact mem_LookupAll e v he hv
  · intro e he
    obtain ⟨h1, h2, h3⟩ := catalog_keys_classify e he
    exact ⟨h1, h2, h3, mem_LookupAll e _ he h3⟩

/-- Witness for C9 at the Cortex-R4 entry `MPU RN` and the demo opcode
`0xee061f12`. -/
theorem every_entry_reachable_without_isa_filter_witness :
    RDESC_CR4 (Pack .CRn 6 ||| Pack .Op1 0 ||| Pack .CRm 2 ||| Pack .Op2 0)
        (some "MPU RN") (some "MPU Memory Region Number") ∈ LookupAll 0xee061f12 :=
  every_entry_reachable_without_isa_filter.1 _ (by decide) 0xee061f12 (by decide) (by decide)

/-- C10: every 32-bit opcode with `CRn = 7`, `Op1 = 0`, `CRm = 5`, `Op2 = 4` gets
exactly two descriptors from the lookup, first the Cortex-A15 entry `ISB`
("Instruction Sync Barrier") and then the Cortex-R4 entry `FlushPrefetch`
("Flush Prefetch Buffer"). -/
theorem lookup_ISB_then_FlushPrefetch (v : Nat) (_h32 : v < 2 ^ 32)
    (hCRn : Extract .CRn v = 7) (hOp1 : Extract .Op1 v = 0)
    (hCRm : Extract .CRm v = 5) (hOp2 : Extract .Op2 v = 4) :
    LookupAll v
        = [RDESC_A15 (Pack .CRn 7 ||| Pack .Op1 0 ||| Pack .CRm 5 ||| Pack .Op2 4)
              (some "ISB") (some "Instruction Sync Barrier"),
            RDESC_CR4 (Pack .CRn 7 ||| Pack .Op1 0 ||| Pack .CRm 5 ||| Pack .Op2 4)
              (some "FlushPrefetch") (some "Flush Prefetch Buffer")]
      ∧ (LookupAll v).map (fun d => d.isaMask) = [ArmIsaCortexA15, ArmIsaCortexR4]
      ∧ (LookupAll v).map descLine
          = ["[ISB] : Instruction Sync Barrier", "[FlushPrefetch] : Flush Prefetch Buffer"] := by
  have hkey : v &&& Mask_Op1_CRm_Op2_CRn = 0x00070085 &&& Mask_Op1_CRm_Op2_CRn := by
    apply key_eq_of_fields
    · rw [hOp1]; rfl
    · rw [hCRn]; rfl
    · rw [hCRm]; rfl
    · rw [hOp2]; rfl
  rw [LookupAll_congr v 0x00070085 hkey]
  decide

/-- Witness for C10 at the opcode `0xee070f95`. -/
theorem lookup_ISB_then_FlushPrefetch_witness :
    (LookupAll 0xee070f95).map descLine
      = ["[ISB] : Instruction Sync Barrier", "[FlushPrefetch] : Flush Prefetch Buffer"] :=
  (lookup_ISB_then_FlushPrefetch 0xee070f95 (by decide) rfl rfl rfl rfl).2.2

/-! ## Auxiliary lemmas: multiplicity of keys -/

theorem filter_mask_length (l : List RegDesc) (k : Nat) :
    (l.filter (fun e => e.mask == k)).length = (l.map (fun e => e.mask)).count k := by
  induction l with
  | nil => rfl
  | cons x xs ih =>
    rw [List.filter_cons, List.map_cons, List.count_cons]
    by_cases h : (x.mask == k) = true
    · rw [if_pos h, if_pos h, List.length_cons, ih]
    · rw [if_neg h, if_neg h, ih]
      rfl

theorem filter_name_LookupAll (q : RegDesc → Bool) (v : Nat) :
    (LookupAll v).filter q
      = (RegDescs.filter q).filter (fun e => e.mask == (v &&& Mask_Op1_CRm_Op2_CRn)) := by
  rw [LookupAll_eq_catalog_filter, List.filter_filter, List.filter_filter]
  congr 1
  funext e
  exact Bool.and_comm _ _

theorem TLBIALL_entries :
    RegDescs.filter (fun e => e.name == some "TLBIALL")
      = [RDESC_A15 (Pack .CRn 8 ||| Pack .Op1 0 ||| Pack .CRm 5 ||| Pack .Op2 0)
            (some "TLBIALL") NULL,
          RDESC_A15 (Pack .CRn 8 ||| Pack .Op1 0 ||| Pack .CRm 6 ||| Pack .Op2 0)
            (some "TLBIALL") NULL,
          RDESC_A15 (Pack .CRn 8 ||| Pack .Op1 0 ||| Pack .CRm 7 ||| Pack .Op2 0)
            (some "TLBIALL") NULL] := by
  decide

theorem TLBIALL_masks :
    (RegDescs.filter (fun e => e.name == some "TLBIALL")).map (fun e => e.mask)
      = [0x00080005, 0x00080006, 0x00080007] := by
  decide

theorem LookupAll_TLBIALL_le_one (v : Nat) :
    ((LookupAll v).filter (fun e => e.name == some "TLBIALL")).length ≤ 1 := by
  rw [filter_name_LookupAll, filter_mask_length, TLBIALL_masks]
  exact List.nodup_iff_count_le_one.mp (by decide) _

/-! ## Repeated names and repeated keys -/

/-- C11 as stated fails: the catalog entries named `TLBIALL` do not share one
stored mask, and no opcode gets more than one `TLBIALL` descriptor from the
lookup. -/
theorem TLBIALL_entries_do_not_share_a_mask :
    ¬ (∃ m, ∀ e ∈ RegDescs, e.name = some "TLBIALL" → e.mask = m)
      ∧ ¬ (∃ v, 1 < ((LookupAll v).filter (fun e => e.name == some "TLBIALL")).length) := by
  constructor
  · rintro ⟨m, hm⟩
    have h5 := hm (RDESC_A15 (Pack .CRn 8 ||| Pack .Op1 0 ||| Pack .CRm 5 ||| Pack .Op2 0)
      (some "TLBIALL") NULL) (by decide) rfl
    have h6 := hm (RDESC_A15 (Pack .CRn 8 ||| Pack .Op1 0 ||| Pack .CRm 6 ||| Pack .Op2 0)
      (some "TLBIALL") NULL) (by decide) rfl
    have hne : (RDESC_A15 (Pack .CRn 8 ||| Pack .Op1 0 ||| Pack .CRm 5 ||| Pack .Op2 0)
        (some "TLBIALL") NULL).mask
        ≠ (RDESC_A15 (Pack .CRn 8 ||| Pack .Op1 0 ||| Pack .CRm 6 ||| Pack .Op2 0)
          (some "TLBIALL") NULL).mask := by decide
    exact hne (h5.trans h6.symm)
  · rintro ⟨v, hv⟩
    exact absurd (LookupAll_TLBIALL_le_one v) (Nat.not_le.mpr hv)

/-- C11 as amended: the repeated `TLBIALL` entries repeat a name, not a key. The
catalog has three entries named `TLBIALL`, all Cortex-A15, with `CRn = 8`,
`Op1 = 0`, `Op2 = 0` and `CRm = 5`, `6`, `7`; their stored masks are pairwise
different, so for every 32-bit opcode the lookup returns at most one `TLBIALL`
descriptor. -/
theorem TLBIALL_entries_have_distinct_masks :
    RegDescs.filter (fun e => e.name == some "TLBIALL")
        = [RDESC_A15 (Pack .CRn 8 ||| Pack .Op1 0 ||| Pack .CRm 5 ||| Pack .Op2 0)
              (some "TLBIALL") NULL,
            RDESC_A15 (Pack .CRn 8 ||| Pack .Op1 0 ||| Pack .CRm 6 ||| Pack .Op2 0)
              (some "TLBIALL") NULL,
            RDESC_A15 (Pack .CRn 8 ||| Pack .Op1 0 ||| Pack .CRm 7 ||| Pack .Op2 0)
              (some "TLBIALL") NULL]
      ∧ ((RegDescs.filter (fun e => e.name == some "TLBIALL")).map (fun e => e.mask)).Nodup
      ∧ (∀ e ∈ RegDescs, e.name = some "TLBIALL" → e.isaMask = ArmIsaCortexA15)
      ∧ ∀ v, v < 2 ^ 32 →
          ((LookupAll v).filter (fun e => e.name == some "TLBIALL")).length ≤ 1 := by
  refine ⟨TLBIALL_entries, ?_, by decide, fun v _ => LookupAll_TLBIALL_le_one v⟩
  rw [TLBIALL_masks]
  decide

/-- Witness for C11 as amended, at the opcode `0xee080f17` (`CRn = 8`, `CRm = 7`). -/
theorem TLBIALL_entries_have_distinct_masks_witness :
    ((LookupAll 0xee080f17).filter (fun e => e.name == some "TLBIALL")).length ≤ 1 :=
  TLBIALL_entries_have_distinct_masks.2.2.2 0xee080f17 (by decide)

/-! ## Auxiliary lemmas: fields of a masked word -/

theorem Extract_lt (f : Field) (v : Nat) : Extract f v < 2 ^ specWidth f := by
  rw [Extract_eq]
  exact Nat.mod_lt _ (Nat.two_pow_pos _)

theorem Extract_and_key (f : Field) (hf : f = .Op1 ∨ f = .CRn ∨ f = .CRm ∨ f = .Op2)
    (v : Nat) : Extract f (v &&& Mask_Op1_CRm_Op2_CRn) = Extract f v := by
  rw [Extract_eq f (v &&& Mask_Op1_CRm_Op2_CRn), key_eq_fields]
  have b1 : Extract .Op1 v < 2 ^ 3 := Extract_lt .Op1 v
  have b2 : Extract .CRn v < 2 ^ 4 := Extract_lt .CRn v
  have b3 : Extract .CRm v < 2 ^ 4 := Extract_lt .CRm v
  have b4 : Extract .Op2 v < 2 ^ 3 := Extract_lt .Op2 v
  rcases hf with h | h | h | h <;> subst h <;>
    simp only [ShiftWidth, specWidth, ShiftWidth_Op1, ShiftWidth_CRn, ShiftWidth_CRm,
      ShiftWidth_Op2] <;>
    omega

theorem catalog_masks_inside_key :
    ∀ e ∈ RegDescs, e.mask &&& Mask_Op1_CRm_Op2_CRn = e.mask := by
  decide

/-! ## Catalog integrity and field layout -/

/-- C12: every catalog entry's stored mask lies inside `Mask_Op1_CRm_Op2_CRn`, and
for every entry `e` and every 32-bit opcode `v`, the loop's comparison
`(v & Mask_Op1_CRm_Op2_CRn) == e.mask` succeeds, that is `e` is among the lookup
results of `v`, if and only if the `Op1`, `CRn`, `CRm` and `Op2` fields of `v`
equal those extracted from `e.mask`. -/
theorem catalog_entry_matches_iff_fields :
    (∀ e ∈ RegDescs, e.mask &&& Mask_Op1_CRm_Op2_CRn = e.mask)
      ∧ ∀ e ∈ RegDescs, ∀ v, v < 2 ^ 32 →
          ((v &&& Mask_Op1_CRm_Op2_CRn = e.mask
              ↔ Extract .Op1 v = Extract .Op1 e.mask ∧ Extract .CRn v = Extract .CRn e.mask
                ∧ Extract .CRm v = Extract .CRm e.mask ∧ Extract .Op2 v = Extract .Op2 e.mask)
            ∧ (e ∈ LookupAll v ↔ v &&& Mask_Op1_CRm_Op2_CRn = e.mask)) := by
  refine ⟨catalog_masks_inside_key, ?_⟩
  intro e he v _
  have hin := catalog_masks_inside_key e he
  constructor
  · constructor
    · intro h
      rw [← h]
      exact ⟨(Extract_and_key .Op1 (Or.inl rfl) v).symm,
        (Extract_and_key .CRn (Or.inr (Or.inl rfl)) v).symm,
        (Extract_and_key .CRm (Or.inr (Or.inr (Or.inl rfl))) v).symm,
        (Extract_and_key .Op2 (Or.inr (Or.inr (Or.inr rfl))) v).symm⟩
    · rintro ⟨h1, h2, h3, h4⟩
      rw [key_eq_of_fields v e.mask h1 h2 h3 h4, hin]
  · rw [LookupAll_eq_catalog_filter, List.mem_filter, beq_iff_eq]
    constructor
    · rintro ⟨_, h⟩
      exact h.symm
    · intro h
      exact ⟨he, h.symm⟩

/-- Witness for C12 at the entry `SCTLR` and the opcode `0xee011f10`. -/
theorem catalog_entry_matches_iff_fields_witness :
    RDESC_ALL (Pack .CRn 1 ||| Pack .Op1 0 ||| Pack .CRm 0 ||| Pack .Op2 0)
        (some "SCTLR") (some "System Control Register") ∈ LookupAll 0xee011f10 :=
  ((catalog_entry_matches_iff_fields.2 _ (by decide) 0xee011f10 (by decide)).2).mpr
    (((catalog_entry_matches_iff_fields.2 _ (by decide) 0xee011f10 (by decide)).1).mpr
      ⟨rfl, rfl, rfl, rfl⟩)

/-- C13: for every 32-bit opcode and each of the seven fields, `Extract` equals
`(opcode >> offset) & ((1 << width) - 1)` with the layout `Op1` 3 bits at 21,
`LdOp` 1 bit at 20, `CRn` 4 bits at 16, `Rd` 4 bits at 12, `Cp` 4 bits at 8,
`Op2` 3 bits at 5, `CRm` 4 bits at 0; `Extract` is total and its result lies in
`[0, 2 ^ width - 1]`. -/
theorem Extract_matches_spec_layout (f : Field) (opcode : Nat) (_h32 : opcode < 2 ^ 32) :
    Extract f opcode = (opcode >>> specOffset f) &&& ((1 <<< specWidth f) - 1)
      ∧ Extract f opcode ≤ 2 ^ specWidth f - 1
      ∧ ShiftWidth f = specOffset f
      ∧ Mask f = (1 <<< specWidth f) - 1
      ∧ (specWidth .Op1, specOffset .Op1) = (3, 21)
      ∧ (specWidth .Ldop, specOffset .Ldop) = (1, 20)
      ∧ (specWidth .CRn, specOffset .CRn) = (4, 16)
      ∧ (specWidth .Rd, specOffset .Rd) = (4, 12)
      ∧ (specWidth .Cp, specOffset .Cp) = (4, 8)
      ∧ (specWidth .Op2, specOffset .Op2) = (3, 5)
      ∧ (specWidth .CRm, specOffset .CRm) = (4, 0) := by
  have hs : ShiftWidth f = specOffset f := by cases f <;> rfl
  have hm : Mask f = (1 <<< specWidth f) - 1 := by cases f <;> rfl
  have hlt := Extract_lt f opcode
  refine ⟨?_, by omega, hs, hm, rfl, rfl, rfl, rfl, rfl, rfl, rfl⟩
  unfold Extract
  rw [hs, hm]

/-- Witness for C13 at the field `Rd` of the opcode `0xee011f10`. -/
theorem Extract_matches_spec_layout_witness :
    Extract .Rd 0xee011f10 = (0xee011f10 >>> 12) &&& ((1 <<< 4) - 1)
      ∧ Extract .Rd 0xee011f10 ≤ 2 ^ 4 - 1 :=
  ⟨(Extract_matches_spec_layout .Rd 0xee011f10 (by decide)).1,
    (Extract_matches_spec_layout .Rd 0xee011f10 (by decide)).2.1⟩

/-! ## Format of the printed lines -/

theorem Ldop_ne_zero_eq_testBit (v : Nat) : (Extract .Ldop v != 0) = v.testBit 20 := by
  unfold Extract Nat.testBit
  rw [Nat.and_comm]
  rfl

/-- C14: for every 32-bit opcode classified as MCR/MRC the two summary lines are
the first two lines appended; both start with `MRC` if bit 20 (`LdOp`) is 1 and
with `MCR` otherwise; the first lists, in decimal, `Cp`, `Op1`, `Rd`, `CRn`, `CRm`,
`Op2` in the shape `"%s, %d, %d, r%d, cr%d, cr%d, {%d}"`, the second lists `CRn`,
`Op1`, `CRm`, `Op2`, `Rd`, `Cp` as labelled pairs, both from the same seven
extracted values. For `0xee011f10` they are `MCR, 15, 0, r1, cr1, cr0, {0}` and
`MCR, CRn=1 Op1=0 CRm=0 Op2=0 Rd=1 CP=15`. -/
theorem summary_lines_format :
    (∀ opcode out, opcode < 2 ^ 32 → is_mcr_or_mrc opcode = true →
        ∃ descLines : List String,
          DecodeMrcAndPrint opcode out
            = out ++
              [(if opcode.testBit 20 then "MRC" else "MCR") ++ ", "
                  ++ toString (Extract .Cp opcode) ++ ", " ++ toString (Extract .Op1 opcode)
                  ++ ", r" ++ toString (Extract .Rd opcode)
                  ++ ", cr" ++ toString (Extract .CRn opcode)
                  ++ ", cr" ++ toString (Extract .CRm opcode)
                  ++ ", \x7b" ++ toString (Extract .Op2 opcode) ++ "\x7d",
                (if opcode.testBit 20 then "MRC" else "MCR")
                  ++ ", CRn=" ++ toString (Extract .CRn opcode)
                  ++ " Op1=" ++ toString (Extract .Op1 opcode)
                  ++ " CRm=" ++ toString (Extract .CRm opcode)
                  ++ " Op2=" ++ toString (Extract .Op2 opcode)
                  ++ " Rd=" ++ toString (Extract .Rd opcode)
                  ++ " CP=" ++ toString (Extract .Cp opcode)]
              ++ descLines)
      ∧ is_mcr_or_mrc 0xee011f10 = true
      ∧ (DecodeMrcAndPrint 0xee011f10 []).take 2
          = ["MCR, 15, 0, r1, cr1, cr0, \x7b0\x7d", "MCR, CRn=1 Op1=0 CRm=0 Op2=0 Rd=1 CP=15"]
      ∧ is_mcr_or_mrc 0xee111f10 = true
      ∧ (DecodeMrcAndPrint 0xee111f10 []).take 2
          = ["MRC, 15, 0, r1, cr1, cr0, \x7b0\x7d", "MRC, CRn=1 Op1=0 CRm=0 Op2=0 Rd=1 CP=15"] := by
  refine ⟨?_, by decide, by decide, by decide, by decide⟩
  intro opcode out _ hmcr
  refine ⟨(LookupAll opcode).map descLine, ?_⟩
  rw [DecodeMrcAndPrint_eq opcode out hmcr]
  unfold asmLine kvLine fmt_asm fmt_kv fmt_d
  rw [Ldop_ne_zero_eq_testBit]

/-- Witness for C14 at the opcode `0xee040f10`, which has no catalog match. -/
theorem summary_lines_format_witness :
    ∃ descLines : List String,
      DecodeMrcAndPrint 0xee040f10 []
        = [] ++
          [(if Nat.testBit 0xee040f10 20 then "MRC" else "MCR") ++ ", "
              ++ toString (Extract .Cp 0xee040f10) ++ ", " ++ toString (Extract .Op1 0xee040f10)
              ++ ", r" ++ toString (Extract .Rd 0xee040f10)
              ++ ", cr" ++ toString (Extract .CRn 0xee040f10)
              ++ ", cr" ++ toString (Extract .CRm 0xee040f10)
              ++ ", \x7b" ++ toString (Extract .Op2 0xee040f10) ++ "\x7d",
            (if Nat.testBit 0xee040f10 20 then "MRC" else "MCR")
              ++ ", CRn=" ++ toString (Extract .CRn 0xee040f10)
              ++ " Op1=" ++ toString (Extract .Op1 0xee040f10)
              ++ " CRm=" ++ toString (Extract .CRm 0xee040f10)
              ++ " Op2=" ++ toString (Extract .Op2 0xee040f10)
              ++ " Rd=" ++ toString (Extract .Rd 0xee040f10)
              ++ " CP=" ++ toString (Extract .Cp 0xee040f10)]
          ++ descLines :=
  summary_lines_format.1 0xee040f10 [] (by decide) (by decide)

/-- C15: every descriptor line has the form `[N] : C`, where `N` is the entry's
name, or `Unknown` if the name is absent, and `C` is the entry's comment, or
`Unknown` if the comment is absent; every 32-bit MCR/MRC opcode with `CRn = 0`,
`Op1 = 1`, `CRm = 2`, `Op2 = 7` yields the single descriptor line
`[AIDR] : Unknown`. -/
theorem descriptor_lines_format :
    (∀ d : RegDesc,
        descLine d = "[" ++ d.name.getD "Unknown" ++ "] : " ++ d.comment.getD "Unknown")
      ∧ (∀ opcode out, opcode < 2 ^ 32 → is_mcr_or_mrc opcode = true →
          DecodeMrcAndPrint opcode out
            = out ++ [asmLine opcode, kvLine opcode]
                ++ (LookupAll opcode).map
                    (fun d => "[" ++ d.name.getD "Unknown" ++ "] : " ++ d.comment.getD "Unknown"))
      ∧ (∀ opcode out, opcode < 2 ^ 32 → is_mcr_or_mrc opcode = true →
          Extract .CRn opcode = 0 → Extract .Op1 opcode = 1 →
          Extract .CRm opcode = 2 → Extract .Op2 opcode = 7 →
          LookupAll opcode
              = [RDESC_A15 (Pack .CRn 0 ||| Pack .Op1 1 ||| Pack .CRm 2 ||| Pack .Op2 7)
                  (some "AIDR") NULL]
            ∧ DecodeMrcAndPrint opcode out
                = out ++ [asmLine opcode, kvLine opcode, "[AIDR] : Unknown"]) := by
  have hd : ∀ d : RegDesc,
      descLine d = "[" ++ d.name.getD "Unknown" ++ "] : " ++ d.comment.getD "Unknown" := by
    intro d
    unfold descLine fmt_desc STRING_UNWRAP
    cases d.name <;> cases d.comment <;> rfl
  refine ⟨hd, ?_, ?_⟩
  · intro opcode out _ hmcr
    rw [DecodeMrcAndPrint_eq opcode out hmcr]
    congr 1
    exact List.map_congr_left (fun d _ => hd d)
  · intro opcode out _ hmcr hCRn hOp1 hCRm hOp2
    have hkey : opcode &&& Mask_Op1_CRm_Op2_CRn = 0x002000e2 &&& Mask_Op1_CRm_Op2_CRn := by
      apply key_eq_of_fields
      · rw [hOp1]; rfl
      · rw [hCRn]; rfl
      · rw [hCRm]; rfl
      · rw [hOp2]; rfl
    have hl : LookupAll opcode
        = [RDESC_A15 (Pack .CRn 0 ||| Pack .Op1 1 ||| Pack .CRm 2 ||| Pack .Op2 7)
            (some "AIDR") NULL] := by
      rw [LookupAll_congr opcode 0x002000e2 hkey]
      decide
    refine ⟨hl, ?_⟩
    rw [DecodeMrcAndPrint_eq opcode out hmcr, hl]
    have : descLine (RDESC_A15 (Pack .CRn 0 ||| Pack .Op1 1 ||| Pack .CRm 2 ||| Pack .Op2 7)
        (some "AIDR") NULL) = "[AIDR] : Unknown" := by decide
    simp [this]

/-- Witness for C15 at the opcode `0xee200ff2`. -/
theorem descriptor_lines_format_witness :
    DecodeMrcAndPrint 0xee200ff2 []
      = [] ++ [asmLine 0xee200ff2, kvLine 0xee200ff2, "[AIDR] : Unknown"] :=
  (descriptor_lines_format.2.2 0xee200ff2 [] (by decide) (by decide) rfl rfl rfl rfl).2

/-! ## Classification and the `Cp` field -/

theorem or_and_self_right (a c : Nat) : (a ||| c) &&& c = c := by
  apply Nat.eq_of_testBit_eq
  intro i
  rw [Nat.testBit_and, Nat.testBit_or]
  cases a.testBit i <;> cases c.testBit i <;> rfl

theorem force_bits_and (v n c k : Nat) (hnk : n &&& k = 0) (hck : c &&& k = c) :
    ((v &&& n) ||| c) &&& k = c := by
  rw [Nat.and_comm, Nat.and_or_distrib_left, Nat.and_comm k (v &&& n), Nat.and_assoc, hnk,
    Nat.and_zero, Nat.zero_or, Nat.and_comm, hck]

theorem force_bits_keep (v n c : Nat) (hcn : c &&& n = 0) :
    ((v &&& n) ||| c) &&& n = v &&& n := by
  rw [Nat.and_comm, Nat.and_or_distrib_left, Nat.and_comm n (v &&& n), Nat.and_assoc,
    Nat.and_self, Nat.and_comm n c, hcn, Nat.or_zero]

theorem is_mcr_or_mrc_Cp (v : Nat) (h : is_mcr_or_mrc v = true) : Extract .Cp v = 15 := by
  have h2 := ((is_mcr_or_mrc_iff v).mp h).2
  have e : Extract .Cp v = v / 2 ^ 8 % 2 ^ 4 := Extract_eq .Cp v
  rw [e, h2]

/-- C16: for every 32-bit `v`, the word obtained from `v` by forcing bits 24-27 to
`0b1110` and bits 8-11 to `0b1111`, that is `(v & ~0x0F000F00) | 0x0E000F00` with
the complement taken in 32 bits, is classified as MCR/MRC whatever the other 24
bits are; that word is again a 32-bit value, it has the forced bits and it
agrees with `v` on all other bits. -/
theorem forced_pattern_classifies (v : Nat) (_h32 : v < 2 ^ 32) :
    is_mcr_or_mrc ((v &&& (0xffffffff ^^^ 0x0F000F00)) ||| 0x0E000F00) = true
      ∧ (v &&& (0xffffffff ^^^ 0x0F000F00)) ||| 0x0E000F00 < 2 ^ 32
      ∧ ((v &&& (0xffffffff ^^^ 0x0F000F00)) ||| 0x0E000F00) &&& 0x0F000F00 = 0x0E000F00
      ∧ ((v &&& (0xffffffff ^^^ 0x0F000F00)) ||| 0x0E000F00) &&& (0xffffffff ^^^ 0x0F000F00)
          = v &&& (0xffffffff ^^^ 0x0F000F00) := by
  have hM : MaskMcrMrc = 0x0E000F00 := rfl
  refine ⟨?_, ?_, ?_, ?_⟩
  · unfold is_mcr_or_mrc
    rw [hM, or_and_self_right]
    rfl
  · exact Nat.or_lt_two_pow (Nat.and_lt_two_pow v (by decide)) (by decide)
  · exact force_bits_and v _ _ _ (by decide) (by decide)
  · exact force_bits_keep v _ _ (by decide)

/-- Witness for C16 at `v = 0`: the forced word is `0x0e000f00`. -/
theorem forced_pattern_classifies_witness :
    is_mcr_or_mrc ((0 &&& (0xffffffff ^^^ 0x0F000F00)) ||| 0x0E000F00) = true :=
  (forced_pattern_classifies 0 (by decide)).1

/-- C17: the classification test and the `Cp` field read the same bits (the low
part of `MaskMcrMrc` is `MaskInReg(Cp)`): for every 32-bit opcode `v`,
`is_mcr_or_mrc(v)` implies `Extract(Cp, v) = 15`, so both summary lines printed
show coprocessor 15, and every opcode whose `Cp` field is not 15 prints nothing;
the demo input `0xee000e15` has `Cp = 14` and prints nothing. -/
theorem classified_opcodes_have_Cp_15 :
    (MaskMcrMrc_8_11 <<< 8 = MaskInReg .Cp ∧ MaskMcrMrc &&& MaskInReg .Cp = MaskInReg .Cp)
      ∧ (∀ v, v < 2 ^ 32 → is_mcr_or_mrc v = true → Extract .Cp v = 15)
      ∧ (∀ v out, v < 2 ^ 32 → is_mcr_or_mrc v = true →
          DecodeMrcAndPrint v out
            = out ++
              [fmt_asm (if Extract .Ldop v != 0 then "MRC" else "MCR") 15 (Extract .Op1 v)
                  (Extract .Rd v) (Extract .CRn v) (Extract .CRm v) (Extract .Op2 v),
                fmt_kv (if Extract .Ldop v != 0 then "MRC" else "MCR") (Extract .CRn v)
                  (Extract .Op1 v) (Extract .CRm v) (Extract .Op2 v) (Extract .Rd v) 15]
              ++ (LookupAll v).map descLine)
      ∧ (∀ v out, v < 2 ^ 32 → Extract .Cp v ≠ 15 → DecodeMrcAndPrint v out = out)
      ∧ 0xee000e15 ∈ test_mcrs
      ∧ Extract .Cp 0xee000e15 = 14
      ∧ DecodeMrcAndPrint 0xee000e15 [] = [] := by
  refine ⟨⟨rfl, by decide⟩, fun v _ h => is_mcr_or_mrc_Cp v h, ?_, ?_, by decide, rfl,
    by decide⟩
  · intro v out _ h
    rw [DecodeMrcAndPrint_eq v out h]
    unfold asmLine kvLine
    rw [is_mcr_or_mrc_Cp v h]
  · intro v out _ hne
    have hno : is_mcr_or_mrc v = false := by
      cases hc : is_mcr_or_mrc v with
      | false => rfl
      | true => exact absurd (is_mcr_or_mrc_Cp v hc) hne
    unfold DecodeMrcAndPrint
    rw [hno]
    rfl

/-- Witness for C17 at the accepted opcode `0xee011f10` and the rejected demo
input `0xee000e15`. -/
theorem classified_opcodes_have_Cp_15_witness :
    Extract .Cp 0xee011f10 = 15
      ∧ DecodeMrcAndPrint 0xee000e15 ["Decoding: ee000e15"] = ["Decoding: ee000e15"] :=
  ⟨classified_opcodes_have_Cp_15.2.1 0xee011f10 (by decide) (by decide),
    classified_opcodes_have_Cp_15.2.2.2.1 0xee000e15 ["Decoding: ee000e15"] (by decide)
      (by decide)⟩

/-- C18, evaluated at the failing input: the first demo opcode is `0x0e005f00`;
its bit 4 is 0, so it does not have the documented shape
`YYYY 1110 YYYL YYYY RRRR 1111 YYY1 YYYY`, and `is_mcr_or_mrc` still accepts it and
`DecodeMrcAndPrint` prints it as an MCR of `MIDR`, because bit 4 is clear in
`MaskMcrMrc` and so is never tested. -/
theorem is_mcr_or_mrc_accepts_bit4_clear :
    test_mcrs.head? = some 0x0e005f00
      ∧ 0x0e005f00 < 2 ^ 32
      ∧ Nat.testBit 0x0e005f00 4 = false
      ∧ Nat.testBit MaskMcrMrc 4 = false
      ∧ is_mcr_or_mrc 0x0e005f00 = true
      ∧ DecodeMrcAndPrint 0x0e005f00 []
          = ["MCR, 15, 0, r5, cr0, cr0, \x7b0\x7d", "MCR, CRn=0 Op1=0 CRm=0 Op2=0 Rd=5 CP=15",
              "[MIDR] : Main ID Register"] := by
  decide

/-! ## Pack stays inside its field -/

theorem shiftLeft_and (a b s : Nat) : (a &&& b) <<< s = (a <<< s) &&& (b <<< s) := by
  apply Nat.eq_of_testBit_eq
  intro i
  simp only [Nat.testBit_and, Nat.testBit_shiftLeft]
  cases decide (i ≥ s) <;> cases a.testBit (i - s) <;> cases b.testBit (i - s) <;> rfl

theorem shiftRight_or (a b s : Nat) : (a ||| b) >>> s = (a >>> s) ||| (b >>> s) := by
  apply Nat.eq_of_testBit_eq
  intro i
  simp only [Nat.testBit_shiftRight, Nat.testBit_or]

theorem Extract_or (f : Field) (a b : Nat) :
    Extract f (a ||| b) = Extract f a ||| Extract f b := by
  unfold Extract
  rw [shiftRight_or, Nat.and_comm, Nat.and_or_distrib_left, Nat.and_comm (Mask f),
    Nat.and_comm (Mask f)]

theorem Pack_eq_shift (f : Field) (x : Nat) :
    Pack f x = (x &&& Mask f) <<< ShiftWidth f := by
  rw [Pack_eq, Mask_eq, Nat.and_pow_two_sub_one_eq_mod, Nat.shiftLeft_eq]

theorem Pack_and_MaskInReg (f : Field) (x : Nat) : Pack f x &&& MaskInReg f = Pack f x := by
  rw [Pack_eq_shift]
  unfold MaskInReg
  rw [← shiftLeft_and, Nat.and_assoc, Nat.and_self]

theorem Extract_Pack_other (f g : Field) (hfg : f ≠ g) (y : Nat) :
    Extract f (Pack g y) = 0 := by
  rw [Extract_eq, Pack_eq]
  cases f <;> cases g <;>
    first
    | exact absurd rfl hfg
    | (simp only [ShiftWidth, specWidth, ShiftWidth_Op1, ShiftWidth_Ldop, ShiftWidth_CRn,
        ShiftWidth_Rd, ShiftWidth_Cp, ShiftWidth_Op2, ShiftWidth_CRm]
       omega)

theorem Extract_Pack_or (f g : Field) (hfg : f ≠ g) (x y : Nat) :
    Extract f (Pack f x ||| Pack g y) = x &&& Mask f := by
  rw [Extract_or, Extract_Pack, Extract_Pack_other f g hfg, Nat.or_zero]

theorem Extract_or_Pack_other (f g : Field) (hfg : f ≠ g) (a y : Nat) :
    Extract f (a ||| Pack g y) = Extract f a := by
  rw [Extract_or, Extract_Pack_other f g hfg, Nat.or_zero]

/-- C19: `Pack` confines a value to its own field and the seven fields are
pairwise disjoint. For every field `f` and 32-bit `x`, `Pack(f, x)` equals
`Pack(f, x & Mask_f)` and has no bit set outside `MaskInReg(f)`; for distinct
fields `f`, `g` and 32-bit `x`, `y`, `Extract(f, Pack(f, x) | Pack(g, y))` is
`x & Mask_f`; so a key built by or-ing the `Pack`s of `CRn`, `Op1`, `CRm` and
`Op2` gives each of the four values back on extraction, masked to its field,
hence unchanged when it fits the field. -/
theorem Pack_confined_to_field (f : Field) (x : Nat) (_hx : x < 2 ^ 32) :
    Pack f x = Pack f (x &&& Mask f)
      ∧ Pack f x &&& MaskInReg f = Pack f x
      ∧ (∀ i, (Pack f x).testBit i = true → (MaskInReg f).testBit i = true)
      ∧ (∀ g y, f ≠ g → y < 2 ^ 32 →
          MaskInReg f &&& MaskInReg g = 0
            ∧ Extract f (Pack f x ||| Pack g y) = x &&& Mask f)
      ∧ (∀ a b c d, a < 2 ^ 32 → b < 2 ^ 32 → c < 2 ^ 32 → d < 2 ^ 32 →
          (Extract .CRn (Pack .CRn a ||| Pack .Op1 b ||| Pack .CRm c ||| Pack .Op2 d)
              = a &&& Mask .CRn
            ∧ Extract .Op1 (Pack .CRn a ||| Pack .Op1 b ||| Pack .CRm c ||| Pack .Op2 d)
              = b &&& Mask .Op1
            ∧ Extract .CRm (Pack .CRn a ||| Pack .Op1 b ||| Pack .CRm c ||| Pack .Op2 d)
              = c &&& Mask .CRm
            ∧ Extract .Op2 (Pack .CRn a ||| Pack .Op1 b ||| Pack .CRm c ||| Pack .Op2 d)
              = d &&& Mask .Op2)
          ∧ (a ≤ Mask .CRn → b ≤ Mask .Op1 → c ≤ Mask .CRm → d ≤ Mask .Op2 →
              Extract .CRn (Pack .CRn a ||| Pack .Op1 b ||| Pack .CRm c ||| Pack .Op2 d) = a
              ∧ Extract .Op1 (Pack .CRn a ||| Pack .Op1 b ||| Pack .CRm c ||| Pack .Op2 d) = b
              ∧ Extract .CRm (Pack .CRn a ||| Pack .Op1 b ||| Pack .CRm c ||| Pack .Op2 d) = c
              ∧ Extract .Op2 (Pack .CRn a ||| Pack .Op1 b ||| Pack .CRm c ||| Pack .Op2 d)
                  = d)) := by
  have hfour : ∀ a b c d : Nat,
      Extract .CRn (Pack .CRn a ||| Pack .Op1 b ||| Pack .CRm c ||| Pack .Op2 d)
          = a &&& Mask .CRn
        ∧ Extract .Op1 (Pack .CRn a ||| Pack .Op1 b ||| Pack .CRm c ||| Pack .Op2 d)
          = b &&& Mask .Op1
        ∧ Extract .CRm (Pack .CRn a ||| Pack .Op1 b ||| Pack .CRm c ||| Pack .Op2 d)
          = c &&& Mask .CRm
        ∧ Extract .Op2 (Pack .CRn a ||| Pack .Op1 b ||| Pack .CRm c ||| Pack .Op2 d)
          = d &&& Mask .Op2 := by
    intro a b c d
    refine ⟨?_, ?_, ?_, ?_⟩
    · rw [Extract_or, Extract_or, Extract_or, Extract_Pack,
        Extract_Pack_other .CRn .Op1 (by decide), Extract_Pack_other .CRn .CRm (by decide),
        Extract_Pack_other .CRn .Op2 (by decide), Nat.or_zero, Nat.or_zero, Nat.or_zero]
    · rw [Extract_or, Extract_or, Extract_or, Extract_Pack,
        Extract_Pack_other .Op1 .CRn (by decide), Extract_Pack_other .Op1 .CRm (by decide),
        Extract_Pack_other .Op1 .Op2 (by decide), Nat.zero_or, Nat.or_zero, Nat.or_zero]
    · rw [Extract_or, Extract_or, Extract_or, Extract_Pack,
        Extract_Pack_other .CRm .CRn (by decide), Extract_Pack_other .CRm .Op1 (by decide),
        Extract_Pack_other .CRm .Op2 (by decide), Nat.zero_or, Nat.zero_or, Nat.or_zero]
    · rw [Extract_or, Extract_or, Extract_or, Extract_Pack,
        Extract_Pack_other .Op2 .CRn (by decide), Extract_Pack_other .Op2 .Op1 (by decide),
        Extract_Pack_other .Op2 .CRm (by decide), Nat.zero_or, Nat.zero_or, Nat.zero_or]
  have hfit : ∀ (g : Field) (z : Nat), z ≤ Mask g → z &&& Mask g = z := by
    intro g z hz
    rw [Mask_eq] at hz ⊢
    exact Nat.and_pow_two_sub_one_of_lt_two_pow
      (Nat.lt_of_le_of_lt hz (Nat.sub_lt (Nat.two_pow_pos _) Nat.one_pos))
  refine ⟨?_, Pack_and_MaskInReg f x, ?_, ?_, ?_⟩
  · unfold Pack
    rw [Nat.and_assoc, Nat.and_self]
  · intro i hi
    rw [← Pack_and_MaskInReg f x, Nat.testBit_and, Bool.and_eq_true] at hi
    exact hi.2
  · intro g y hfg _
    refine ⟨?_, Extract_Pack_or f g hfg x y⟩
    cases f <;> cases g <;> first | exact absurd rfl hfg | rfl
  · intro a b c d _ _ _ _
    refine ⟨hfour a b c d, ?_⟩
    intro ha hb hc hd
    obtain ⟨h1, h2, h3, h4⟩ := hfour a b c d
    rw [hfit _ _ ha] at h1
    rw [hfit _ _ hb] at h2
    rw [hfit _ _ hc] at h3
    rw [hfit _ _ hd] at h4
    exact ⟨h1, h2, h3, h4⟩

/-- Witness for C19: packing the out-of-range value `0x1f` into `CRn` next to
`Op2 = 7`, and the key of `ISB` made from in-range values. -/
theorem Pack_confined_to_field_witness :
    Extract .CRn (Pack .CRn 0x1f ||| Pack .Op2 7) = 0x1f &&& Mask .CRn
      ∧ Extract .CRm (Pack .CRn 7 ||| Pack .Op1 0 ||| Pack .CRm 5 ||| Pack .Op2 4) = 5 :=
  ⟨((Pack_confined_to_field .CRn 0x1f (by decide)).2.2.2.1 .Op2 7 (by decide) (by decide)).2,
    (((Pack_confined_to_field .CRn 7 (by decide)).2.2.2.2 7 0 5 4 (by decide) (by decide)
      (by decide) (by decide)).2 (by decide) (by decide) (by decide) (by decide)).2.2.1⟩

/-! ## Keys that occur more than once -/

theorem catalog_masks :
    RegDescs.map (fun e => e.mask) = [
      0x000000, 0x000020, 0x000040, 0x000060, 0x0000a0, 0x0000c0, 0x000001, 0x000021, 0x000041, 0x000061,
      0x000081, 0x0000a1, 0x0000c1, 0x0000e1, 0x000002, 0x000022, 0x000042, 0x000062, 0x000082, 0x0000a2,
      0x200002, 0x200022, 0x2000e2, 0x400000, 0x800000, 0x8000a0, 0x010000, 0x010020, 0x010040, 0x010001,
      0x010021, 0x010041, 0x010061, 0x810000, 0x810020, 0x810001, 0x810021, 0x810041, 0x810061, 0x8100e1,
      0x020000, 0x020020, 0x020040, 0x820040, 0x820041, 0x030000, 0x050000, 0x050020, 0x050001, 0x050021,
      0x850001, 0x850001, 0x850002, 0x060000, 0x060040, 0x860000, 0x860040, 0x860080, 0x060001, 0x060041,
      0x060081, 0x060002, 0x070000, 0x070020, 0x070040, 0x070060, 0x070080, 0x070001, 0x0700c1, 0x0700e1,
      0x070004, 0x070005, 0x070025, 0x070045, 0x070065, 0x070085, 0x070085, 0x0700c5, 0x0700c6, 0x070046,
      0x070008, 0x070028, 0x070048, 0x070068, 0x070088, 0x0700a8, 0x0700c8, 0x0700e8, 0x07002a, 0x07004a,
      0x07008a, 0x0700aa, 0x07002b, 0x07002e, 0x07004e, 0x870008, 0x870008, 0x080003, 0x080023, 0x080043,
      0x080063, 0x080005, 0x080025, 0x080045, 0x080065, 0x080006, 0x080026, 0x080046, 0x080066, 0x080007,
      0x080027, 0x080047, 0x080067, 0x880003, 0x880023, 0x880083, 0x880007, 0x880027, 0x880087, 0x290040,
      0x290060, 0x0a0000, 0x0a0002, 0x0a0022, 0x0a0003, 0x0a0023, 0x8a0002, 0x8a0022, 0x8a0003, 0x8a0023,
      0x0c0000, 0x0c0020, 0x0c0001, 0x0c0021, 0x8c0000, 0x0d0000, 0x0d0020, 0x0d0040, 0x0d0060, 0x0d0080,
      0x8d0040, 0x0f0000, 0x0f0001, 0x8f0000, 0xaf0044, 0xaf0084, 0xaf0045, 0xaf0046, 0xaf0047, 0x0f000e] := by
  decide

theorem catalog_mask_count_le_two (k : Nat) : (RegDescs.map (fun e => e.mask)).count k ≤ 2 := by
  by_cases hk : k ∈ RegDescs.map (fun e => e.mask)
  · revert k
    rw [catalog_masks]
    decide
  · rw [List.count_eq_zero_of_not_mem hk]
    exact Nat.zero_le 2

theorem LookupAll_length (v : Nat) :
    (LookupAll v).length
      = (RegDescs.map (fun e => e.mask)).count (v &&& Mask_Op1_CRm_Op2_CRn) := by
  rw [LookupAll_eq_catalog_filter, filter_mask_length]

theorem catalog_mask_multiplicity :
    ∀ m ∈ RegDescs.map (fun e => e.mask),
      (RegDescs.map (fun e => e.mask)).count m
        = if m ∈ [Pack .CRn 5 ||| Pack .Op1 4 ||| Pack .CRm 1 ||| Pack .Op2 0,
                  Pack .CRn 7 ||| Pack .Op1 0 ||| Pack .CRm 5 ||| Pack .Op2 4,
                  Pack .CRn 7 ||| Pack .Op1 4 ||| Pack .CRm 8 ||| Pack .Op2 0]
          then 2 else 1 := by
  rw [catalog_masks]
  decide

/-- C20: exactly three match keys occur more than once in the catalog, each
exactly twice: `(CRn=5, Op1=4, CRm=1, Op2=0)` for `HADFSR` and `HAIFSR`,
`(CRn=7, Op1=0, CRm=5, Op2=4)` for `ISB` and `FlushPrefetch`, and
`(CRn=7, Op1=4, CRm=8, Op2=0)` for `ATS1HR` and `ATS1HW`; every other stored mask
occurs once, so for every 32-bit opcode the lookup returns at most two
descriptors. -/
theorem duplicate_keys_are_three_pairs :
    (∀ e ∈ RegDescs,
        (RegDescs.map (fun d => d.mask)).count e.mask
          = if e.mask ∈ [Pack .CRn 5 ||| Pack .Op1 4 ||| Pack .CRm 1 ||| Pack .Op2 0,
                    Pack .CRn 7 ||| Pack .Op1 0 ||| Pack .CRm 5 ||| Pack .Op2 4,
                    Pack .CRn 7 ||| Pack .Op1 4 ||| Pack .CRm 8 ||| Pack .Op2 0]
            then 2 else 1)
      ∧ [Pack .CRn 5 ||| Pack .Op1 4 ||| Pack .CRm 1 ||| Pack .Op2 0,
          Pack .CRn 7 ||| Pack .Op1 0 ||| Pack .CRm 5 ||| Pack .Op2 4,
          Pack .CRn 7 ||| Pack .Op1 4 ||| Pack .CRm 8 ||| Pack .Op2 0].Nodup
      ∧ RegDescs.filter
            (fun e => e.mask == (Pack .CRn 5 ||| Pack .Op1 4 ||| Pack .CRm 1 ||| Pack .Op2 0))
          = [RDESC_A15 (Pack .CRn 5 ||| Pack .Op1 4 ||| Pack .CRm 1 ||| Pack .Op2 0)
                (some "HADFSR") (some "Hypervisor Auxiliary Data Fault Status Register"),
              RDESC_A15 (Pack .CRn 5 ||| Pack .Op1 4 ||| Pack .CRm 1 ||| Pack .Op2 0)
                (some "HAIFSR")
                (some "Hypervisor Auxiliary Instruction Fault Status Register")]
      ∧ RegDescs.filter
            (fun e => e.mask == (Pack .CRn 7 ||| Pack .Op1 0 ||| Pack .CRm 5 ||| Pack .Op2 4))
          = [RDESC_A15 (Pack .CRn 7 ||| Pack .Op1 0 ||| Pack .CRm 5 ||| Pack .Op2 4)
                (some "ISB") (some "Instruction Sync Barrier"),
              RDESC_CR4 (Pack .CRn 7 ||| Pack .Op1 0 ||| Pack .CRm 5 ||| Pack .Op2 4)
                (some "FlushPrefetch") (some "Flush Prefetch Buffer")]
      ∧ RegDescs.filter
            (fun e => e.mask == (Pack .CRn 7 ||| Pack .Op1 4 ||| Pack .CRm 8 ||| Pack .Op2 0))
          = [RDESC_A15 (Pack .CRn 7 ||| Pack .Op1 4 ||| Pack .CRm 8 ||| Pack .Op2 0)
                (some "ATS1HR") NULL,
              RDESC_A15 (Pack .CRn 7 ||| Pack .Op1 4 ||| Pack .CRm 8 ||| Pack .Op2 0)
                (some "ATS1HW") NULL]
      ∧ ∀ v, v < 2 ^ 32 → (LookupAll v).length ≤ 2 := by
  refine ⟨?_, by decide, by decide, by decide, by decide, ?_⟩
  · intro e he
    exact catalog_mask_multiplicity e.mask (List.mem_map_of_mem _ he)
  · intro v _
    rw [LookupAll_length]
    exact catalog_mask_count_le_two _

/-- Witness for C20 at the opcode `0xee870f18`, whose key is that of `ATS1HR` and
`ATS1HW`. -/
theorem duplicate_keys_are_three_pairs_witness :
    (LookupAll 0xee870f18).length ≤ 2 :=
  duplicate_keys_are_three_pairs.2.2.2.2.2 0xee870f18 (by decide)

/-! ## The exhaustive sweep -/

theorem RunFullTest_step_some (s : FullTestState) (h : s.i < 2 ^ 32) :
    RunFullTest_step s
      = some { i := (s.i + 1) % 2 ^ 32, out := DecodeMrcAndPrint s.i s.out } := by
  unfold RunFullTest_step
  rw [if_pos (by omega)]

theorem RunFullTest_loop_none :
    ∀ (fuel : Nat) (s : FullTestState), s.i < 2 ^ 32 → RunFullTest_loop fuel s = none := by
  intro fuel
  induction fuel with
  | zero => intro s _; rfl
  | succ n ih =>
    intro s h
    unfold RunFullTest_loop
    rw [RunFullTest_step_some s h]
    exact ih _ (Nat.mod_lt _ (Nat.two_pow_pos 32))

theorem RunFullTest_passes_counter (out : Stdout) :
    ∀ n : Nat, ∃ o : Stdout,
      RunFullTest_passes n { i := 0, out := out } = some { i := n % 2 ^ 32, out := o }
        ∧ RunFullTest_passes (n + 1) { i := 0, out := out }
            = some { i := (n + 1) % 2 ^ 32, out := DecodeMrcAndPrint (n % 2 ^ 32) o } := by
  have hstep : ∀ (n : Nat) (o : Stdout),
      RunFullTest_passes n { i := 0, out := out } = some { i := n % 2 ^ 32, out := o } →
      RunFullTest_passes (n + 1) { i := 0, out := out }
        = some { i := (n + 1) % 2 ^ 32, out := DecodeMrcAndPrint (n % 2 ^ 32) o } := by
    intro n o h
    have hlt : n % 2 ^ 32 < 2 ^ 32 := Nat.mod_lt _ (Nat.two_pow_pos 32)
    show (RunFullTest_passes n { i := 0, out := out }).bind RunFullTest_step = _
    rw [h, Option.some_bind, RunFullTest_step_some _ hlt]
    have hmod : (n % 2 ^ 32 + 1) % 2 ^ 32 = (n + 1) % 2 ^ 32 := by omega
    simp only [hmod]
  intro n
  induction n with
  | zero => exact ⟨out, rfl, hstep 0 out rfl⟩
  | succ k ih =>
    obtain ⟨o, h1, h2⟩ := ih
    exact ⟨DecodeMrcAndPrint (k % 2 ^ 32) o, h2, hstep (k + 1) _ h2⟩

/-- C21: the sweep `RunFullTest` never terminates. The guard `i <= 0xffffffff`
holds for every value of the 32-bit counter and incrementing `0xffffffff` wraps
to 0, so every pass through the loop is followed by another one: after `n`
passes the counter is `n mod 2 ^ 32`, pass `n + 1` decodes that opcode, after
`2 ^ 32` passes the counter is 0 again and the sweep starts over, and however
many passes are allowed the loop has not been left. -/
theorem RunFullTest_never_terminates :
    (∀ s : FullTestState, s.i < 2 ^ 32 → s.i ≤ 0xffffffff ∧ RunFullTest_step s ≠ none)
      ∧ (∀ out, RunFullTest_step { i := 0xffffffff, out := out }
            = some { i := 0, out := DecodeMrcAndPrint 0xffffffff out })
      ∧ (∀ out n, ∃ o : Stdout,
          RunFullTest_passes n { i := 0, out := out } = some { i := n % 2 ^ 32, out := o }
            ∧ RunFullTest_passes (n + 1) { i := 0, out := out }
                = some { i := (n + 1) % 2 ^ 32, out := DecodeMrcAndPrint (n % 2 ^ 32) o })
      ∧ (∀ out, ∃ o : Stdout,
          RunFullTest_passes (2 ^ 32) { i := 0, out := out } = some { i := 0, out := o })
      ∧ (∀ fuel out, RunFullTest fuel out = none) := by
  refine ⟨?_, ?_, RunFullTest_passes_counter, ?_, ?_⟩
  · intro s h
    refine ⟨by omega, ?_⟩
    rw [RunFullTest_step_some s h]
    exact Option.some_ne_none _
  · intro out
    have h : (0xffffffff : Nat) < 2 ^ 32 := by decide
    rw [RunFullTest_step_some { i := 0xffffffff, out := out } h]
    have hw : (0xffffffff + 1) % 2 ^ 32 = 0 := by decide
    show some (FullTestState.mk ((0xffffffff + 1) % 2 ^ 32) (DecodeMrcAndPrint 0xffffffff out))
      = some (FullTestState.mk 0 (DecodeMrcAndPrint 0xffffffff out))
    rw [hw]
  · intro out
    obtain ⟨o, h, _⟩ := RunFullTest_passes_counter out (2 ^ 32)
    exact ⟨o, h⟩
  · intro fuel out
    exact RunFullTest_loop_none fuel { i := 0, out := out } (Nat.two_pow_pos 32)

/-- Witness for C21: three passes from empty output are not enough to leave the
loop, and the pass at counter `0xffffffff` is followed by one at counter 0. -/
theorem RunFullTest_never_terminates_witness :
    RunFullTest 3 [] = none
      ∧ RunFullTest_step { i := 0xffffffff, out := [] } ≠ none :=
  ⟨RunFullTest_never_terminates.2.2.2.2 3 [],
    (RunFullTest_never_terminates.1 { i := 0xffffffff, out := [] } (by decide)).2⟩

end ArmMcr
